import Mathlib

/-!
Shallow embedding of the reachy_mini_dances_library repository
(rhythmic_motion.py, collection/dance.py, dance_move.py, examples/dance_demo.py).

Python floats are modelled as real numbers where trigonometry is involved and
as rational numbers elsewhere; numpy arrays of shape (n,) are modelled as
lists of reals of length n; Python dicts with string keys are modelled as
association lists in insertion order; code that can raise is modelled with
Option or Except.
-/

set_option maxHeartbeats 1000000

/-- Syntactic value stored in a parameter dictionary.  Numeric literals from
the source are `num`; a call `np.deg2rad(x)` in the source is represented as
`degrees x` (its numeric value is given by `PValue.toReal`); string values are
`str`. -/
inductive PValue where
  | num (q : ℚ)
  | degrees (q : ℚ)
  | str (s : String)
  deriving DecidableEq, Repr

/-- Numeric value of a parameter entry; `degrees x` denotes `np.deg2rad(x)`,
that is `x * pi / 180`.  Reading a string as a number never happens for the
inputs covered by the theorems below (in Python it would be a TypeError). -/
noncomputable def PValue.toReal : PValue → ℝ
  | .num q => (q : ℝ)
  | .degrees q => (q : ℝ) * Real.pi / 180
  | .str _ => 0

/-- A Python dict with string keys, in insertion order. -/
abbrev ParamDict := List (String × PValue)

/-- Dictionary read, `d[k]` or `d.get(k)`. -/
def dictLookup : ParamDict → String → Option PValue
  | [], _ => none
  | (k', v) :: rest, k => if k' = k then some v else dictLookup rest k

/-- Dictionary write `d[k] = v`: replaces the value of an existing key in
place (keeping its position, as Python dicts do) or appends a new binding. -/
def dictSet : ParamDict → String → PValue → ParamDict
  | [], k, v => [(k, v)]
  | (k', v') :: rest, k, v =>
      if k' = k then (k', v) :: rest else (k', v') :: dictSet rest k v

/-- Python `d.update(ov)`: write every binding of `ov` into `d`, in order. -/
def dictUpdate (d : ParamDict) : ParamDict → ParamDict
  | [] => d
  | (k, v) :: rest => dictUpdate (dictSet d k v) rest

/-- Python `d.pop(k, default)` restricted to the removal part: the dict with
every binding for `k` removed. -/
def dictErase (d : ParamDict) (k : String) : ParamDict :=
  d.filter (fun kv => kv.1 ≠ k)

/-- Read a numeric entry as a rational, with a fallback used both for a
missing key and for the value shapes that never occur at that key in the
registry (`degrees` and `str`). -/
def getNumQ (d : ParamDict) (k : String) (dflt : ℚ) : ℚ :=
  match dictLookup d k with
  | some (.num q) => q
  | _ => dflt

/-- Read a string entry, with a fallback for a missing key. -/
def getStrD (d : ParamDict) (k : String) (dflt : String) : String :=
  match dictLookup d k with
  | some (.str s) => s
  | _ => dflt

/-- Read a required numeric keyword argument.  The fallback 0 is never hit for
the inputs covered below (in Python a missing required argument would be a
TypeError at call time). -/
noncomputable def getNumR (d : ParamDict) (k : String) : ℝ :=
  match dictLookup d k with
  | some v => v.toReal
  | none => 0

/-- Read an optional numeric keyword argument with its signature default. -/
noncomputable def getNumRD (d : ParamDict) (k : String) (dflt : ℝ) : ℝ :=
  match dictLookup d k with
  | some v => v.toReal
  | none => dflt

/-!
rhythmic_motion.py: signal primitives, the offset algebra and the atomic
moves.
-/

/-- Data structure holding motion offsets (`MoveOffsets` in
rhythmic_motion.py); the three numpy arrays of shapes (3,), (3,) and (2,) are
modelled as lists of reals. -/
structure MoveOffsets where
  position_offset : List ℝ
  orientation_offset : List ℝ
  antennas_offset : List ℝ

/-- Model of `np.zeros(n)`. -/
def vzeros (n : ℕ) : List ℝ := List.replicate n 0

/-- Elementwise numpy addition of two arrays of equal shape. -/
noncomputable def vadd (a b : List ℝ) : List ℝ :=
  List.zipWith (fun x y => x + y) a b

/-- Elementwise numpy subtraction. -/
noncomputable def vsub (a b : List ℝ) : List ℝ :=
  List.zipWith (fun x y => x - y) a b

/-- Numpy scalar times array broadcast. -/
noncomputable def vsmul (c : ℝ) (a : List ℝ) : List ℝ :=
  a.map (fun x => c * x)

/-- Parameters for oscillation motion (`OscillationParams`). -/
structure OscillationParams where
  amplitude : ℝ
  subcycles_per_beat : ℝ := 1
  phase_offset : ℝ := 0
  waveform : String := "sin"

/-- Parameters for a one-shot transient motion (`TransientParams`), generic in
the number type so the same definition serves the exact rational model and the
real-valued moves. -/
structure TransientParams (α : Type) where
  amplitude : α
  duration_in_beats : α
  delay_beats : α
  repeat_every : α

/-- Phase of the oscillation: `2 * np.pi * (subcycles_per_beat * t_beats +
phase_offset)` in `oscillation_motion`. -/
noncomputable def oscPhase (t_beats : ℝ) (params : OscillationParams) : ℝ :=
  2 * Real.pi * (params.subcycles_per_beat * t_beats + params.phase_offset)

/-- The five recognized waveform identifiers of `oscillation_motion`. -/
def recognizedWaveforms : List String :=
  ["sin", "cos", "square", "triangle", "sawtooth"]

/-- Model of `oscillation_motion`: dispatch on the waveform string; the
trailing `raise ValueError` is the `.error` branch.  Python float modulo by 1
is the fractional part `Int.fract`. -/
noncomputable def oscillation_motion (t_beats : ℝ) (params : OscillationParams) :
    Except String ℝ :=
  let phase := oscPhase t_beats params
  if params.waveform = "sin" then
    .ok (params.amplitude * Real.sin phase)
  else if params.waveform = "cos" then
    .ok (params.amplitude * Real.cos phase)
  else if params.waveform = "square" then
    .ok (params.amplitude * Real.sign (Real.sin phase))
  else if params.waveform = "triangle" then
    .ok (params.amplitude * (2 / Real.pi) * Real.arcsin (Real.sin phase))
  else if params.waveform = "sawtooth" then
    .ok (params.amplitude * (2 * Int.fract (phase / (2 * Real.pi)) - 1))
  else
    .error ("Unsupported waveform type: " ++ params.waveform)

/-- Smoothstep easing `t * t * (3 - 2 * t)` used by `transient_motion` and by
several moves. -/
def smoothstepEase {α : Type} [LinearOrderedField α] (x : α) : α :=
  x * x * (3 - 2 * x)

/-- Start time of the transient window: floor-based repetition start when
`repeat_every > 0`, else the plain delay. -/
def transientStart {α : Type} [LinearOrderedField α] [FloorRing α]
    (t_beats : α) (params : TransientParams α) : α :=
  if 0 < params.repeat_every then
    (⌊(t_beats - params.delay_beats) / params.repeat_every⌋ : ℤ) *
        params.repeat_every + params.delay_beats
  else
    params.delay_beats

/-- Model of `transient_motion`: zero outside the window
`[start, start + duration)`, eased ramp inside it. -/
def transient_motion {α : Type} [LinearOrderedField α] [FloorRing α]
    (t_beats : α) (params : TransientParams α) : α :=
  let start_time := transientStart t_beats params
  if start_time ≤ t_beats ∧ t_beats < start_time + params.duration_in_beats then
    params.amplitude *
      smoothstepEase ((t_beats - start_time) / params.duration_in_beats)
  else
    0

/-- Model of `combine_offsets`: zero offsets for the empty list, else the
numpy sums (a fold of elementwise addition started at `np.zeros`). -/
noncomputable def combine_offsets (offsets_list : List MoveOffsets) : MoveOffsets :=
  match offsets_list with
  | [] => ⟨vzeros 3, vzeros 3, vzeros 2⟩
  | _ =>
      ⟨(offsets_list.map MoveOffsets.position_offset).foldl vadd (vzeros 3),
       (offsets_list.map MoveOffsets.orientation_offset).foldl vadd (vzeros 3),
       (offsets_list.map MoveOffsets.antennas_offset).foldl vadd (vzeros 2)⟩

/-- Model of `atomic_x_pos`; the oscillation error propagates. -/
noncomputable def atomic_x_pos (t_beats : ℝ) (params : OscillationParams) :
    Except String MoveOffsets :=
  (oscillation_motion t_beats params).map
    (fun val => ⟨[val, 0, 0], vzeros 3, vzeros 2⟩)

/-- Model of `atomic_y_pos`. -/
noncomputable def atomic_y_pos (t_beats : ℝ) (params : OscillationParams) :
    Except String MoveOffsets :=
  (oscillation_motion t_beats params).map
    (fun val => ⟨[0, val, 0], vzeros 3, vzeros 2⟩)

/-- Model of `atomic_z_pos`. -/
noncomputable def atomic_z_pos (t_beats : ℝ) (params : OscillationParams) :
    Except String MoveOffsets :=
  (oscillation_motion t_beats params).map
    (fun val => ⟨[0, 0, val], vzeros 3, vzeros 2⟩)

/-- Model of `atomic_roll`. -/
noncomputable def atomic_roll (t_beats : ℝ) (params : OscillationParams) :
    Except String MoveOffsets :=
  (oscillation_motion t_beats params).map
    (fun val => ⟨vzeros 3, [val, 0, 0], vzeros 2⟩)

/-- Model of `atomic_pitch`. -/
noncomputable def atomic_pitch (t_beats : ℝ) (params : OscillationParams) :
    Except String MoveOffsets :=
  (oscillation_motion t_beats params).map
    (fun val => ⟨vzeros 3, [0, val, 0], vzeros 2⟩)

/-- Model of `atomic_yaw`. -/
noncomputable def atomic_yaw (t_beats : ℝ) (params : OscillationParams) :
    Except String MoveOffsets :=
  (oscillation_motion t_beats params).map
    (fun val => ⟨vzeros 3, [0, 0, val], vzeros 2⟩)

/-- Model of `atomic_antenna_wiggle`. -/
noncomputable def atomic_antenna_wiggle (t_beats : ℝ) (params : OscillationParams) :
    Except String MoveOffsets :=
  (oscillation_motion t_beats params).map
    (fun val => ⟨vzeros 3, vzeros 3, [val, -val]⟩)

/-- Model of `atomic_antenna_both`. -/
noncomputable def atomic_antenna_both (t_beats : ℝ) (params : OscillationParams) :
    Except String MoveOffsets :=
  (oscillation_motion t_beats params).map
    (fun val => ⟨vzeros 3, vzeros 3, [val, val]⟩)

/-- The antenna style dictionary `AVAILABLE_ANTENNA_MOVES`; an unknown name is
a Python KeyError, modelled as an error result by `antennaDispatch` below. -/
noncomputable def AVAILABLE_ANTENNA_MOVES :
    List (String × (ℝ → OscillationParams → Except String MoveOffsets)) :=
  [("wiggle", atomic_antenna_wiggle), ("both", atomic_antenna_both)]

/-- Dictionary read on the antenna style table. -/
def antennaLookup {α : Type} : List (String × α) → String → Option α
  | [], _ => none
  | (k', v) :: rest, k => if k' = k then some v else antennaLookup rest k

/-- Dictionary dispatch `AVAILABLE_ANTENNA_MOVES[antenna_move_name](...)`. -/
noncomputable def antennaDispatch (antenna_move_name : String) (t_beats : ℝ)
    (params : OscillationParams) : Except String MoveOffsets :=
  match antennaLookup AVAILABLE_ANTENNA_MOVES antenna_move_name with
  | some f => f t_beats params
  | none => .error ("KeyError: " ++ antenna_move_name)

/-- Python float modulo `a % b` for a positive divisor:
`a - b * floor(a / b)`. -/
def pymod {α : Type} [LinearOrderedField α] [FloorRing α] (a b : α) : α :=
  a - b * (⌊a / b⌋ : ℤ)

/-- Numpy `np.clip(x, lo, hi)`. -/
def clip {α : Type} [LinearOrder α] (x lo hi : α) : α := min (max x lo) hi

/-!
collection/dance.py: the twenty choreographed moves.  Python keyword defaults
are not attached to these definitions; the registry wrappers below supply
every argument, using the signature default when the parameter dictionary has
no entry for it.
-/

/-- Model of `move_simple_nod`. -/
noncomputable def move_simple_nod (t_beats amplitude_rad antenna_amplitude_rad
    subcycles_per_beat : ℝ) (antenna_move_name : String) (phase_offset : ℝ)
    (waveform : String) : Except String MoveOffsets := do
  let base_params : OscillationParams :=
    ⟨amplitude_rad, subcycles_per_beat, phase_offset, waveform⟩
  let antenna_params : OscillationParams :=
    ⟨antenna_amplitude_rad, subcycles_per_beat, phase_offset, waveform⟩
  let base ← atomic_pitch t_beats base_params
  let antennas ← antennaDispatch antenna_move_name t_beats antenna_params
  pure (combine_offsets [base, antennas])

/-- Model of `move_head_tilt_roll`. -/
noncomputable def move_head_tilt_roll (t_beats amplitude_rad
    antenna_amplitude_rad subcycles_per_beat : ℝ) (antenna_move_name : String)
    (phase_offset : ℝ) (waveform : String) : Except String MoveOffsets := do
  let base_params : OscillationParams :=
    ⟨amplitude_rad, subcycles_per_beat, phase_offset, waveform⟩
  let antenna_params : OscillationParams :=
    ⟨antenna_amplitude_rad, subcycles_per_beat, phase_offset, waveform⟩
  let base ← atomic_roll t_beats base_params
  let antennas ← antennaDispatch antenna_move_name t_beats antenna_params
  pure (combine_offsets [base, antennas])

/-- Model of `move_side_to_side_sway`. -/
noncomputable def move_side_to_side_sway (t_beats amplitude_m
    antenna_amplitude_rad subcycles_per_beat : ℝ) (antenna_move_name : String)
    (phase_offset : ℝ) (waveform : String) : Except String MoveOffsets := do
  let base_params : OscillationParams :=
    ⟨amplitude_m, subcycles_per_beat, phase_offset, waveform⟩
  let antenna_params : OscillationParams :=
    ⟨antenna_amplitude_rad, subcycles_per_beat, phase_offset, waveform⟩
  let base ← atomic_y_pos t_beats base_params
  let antennas ← antennaDispatch antenna_move_name t_beats antenna_params
  pure (combine_offsets [base, antennas])

/-- Model of `move_dizzy_spin`. -/
noncomputable def move_dizzy_spin (t_beats roll_amplitude_rad
    pitch_amplitude_rad antenna_amplitude_rad subcycles_per_beat : ℝ)
    (antenna_move_name : String) (phase_offset : ℝ) (waveform : String) :
    Except String MoveOffsets := do
  let roll_params : OscillationParams :=
    ⟨roll_amplitude_rad, subcycles_per_beat, phase_offset, waveform⟩
  let pitch_params : OscillationParams :=
    ⟨pitch_amplitude_rad, subcycles_per_beat, phase_offset + 0.25, waveform⟩
  let antenna_params : OscillationParams :=
    ⟨antenna_amplitude_rad, subcycles_per_beat, phase_offset, waveform⟩
  let roll ← atomic_roll t_beats roll_params
  let pitch ← atomic_pitch t_beats pitch_params
  let antennas ← antennaDispatch antenna_move_name t_beats antenna_params
  pure (combine_offsets [roll, pitch, antennas])

/-- Model of `move_stumble_and_recover`. -/
noncomputable def move_stumble_and_recover (t_beats yaw_amplitude_rad
    pitch_amplitude_rad y_amplitude_m antenna_amplitude_rad
    subcycles_per_beat : ℝ) (antenna_move_name : String) (phase_offset : ℝ)
    (waveform : String) : Except String MoveOffsets := do
  let yaw_params : OscillationParams :=
    ⟨yaw_amplitude_rad, subcycles_per_beat, phase_offset, waveform⟩
  let pitch_params : OscillationParams :=
    ⟨pitch_amplitude_rad, subcycles_per_beat * 2, phase_offset, waveform⟩
  let sway_params : OscillationParams :=
    ⟨y_amplitude_m, subcycles_per_beat, phase_offset + 0.5, waveform⟩
  let antenna_params : OscillationParams :=
    ⟨antenna_amplitude_rad, subcycles_per_beat, phase_offset, waveform⟩
  let yaw ← atomic_yaw t_beats yaw_params
  let pitch ← atomic_pitch t_beats pitch_params
  let stabilizer_sway ← atomic_y_pos t_beats sway_params
  let antennas ← antennaDispatch antenna_move_name t_beats antenna_params
  pure (combine_offsets [yaw, pitch, stabilizer_sway, antennas])

/-- Model of `move_headbanger_combo`. -/
noncomputable def move_headbanger_combo (t_beats pitch_amplitude_rad
    z_amplitude_m antenna_amplitude_rad subcycles_per_beat : ℝ)
    (antenna_move_name : String) (phase_offset : ℝ) (waveform : String) :
    Except String MoveOffsets := do
  let nod_params : OscillationParams :=
    ⟨pitch_amplitude_rad, subcycles_per_beat, phase_offset, waveform⟩
  let bounce_params : OscillationParams :=
    ⟨z_amplitude_m, subcycles_per_beat, phase_offset + 0.1, waveform⟩
  let antenna_params : OscillationParams :=
    ⟨antenna_amplitude_rad, subcycles_per_beat, phase_offset, waveform⟩
  let nod ← atomic_pitch t_beats nod_params
  let bounce ← atomic_z_pos t_beats bounce_params
  let antennas ← antennaDispatch antenna_move_name t_beats antenna_params
  pure (combine_offsets [nod, bounce, antennas])

/-- Model of `move_interwoven_spirals`. -/
noncomputable def move_interwoven_spirals (t_beats roll_amp pitch_amp yaw_amp
    antenna_amplitude_rad subcycles_per_beat : ℝ) (antenna_move_name : String)
    (phase_offset : ℝ) (waveform : String) : Except String MoveOffsets := do
  let roll_params : OscillationParams := ⟨roll_amp, 0.125, phase_offset, waveform⟩
  let pitch_params : OscillationParams :=
    ⟨pitch_amp, 0.25, phase_offset + 0.25, waveform⟩
  let yaw_params : OscillationParams := ⟨yaw_amp, 0.5, phase_offset + 0.5, waveform⟩
  let antenna_params : OscillationParams :=
    ⟨antenna_amplitude_rad, subcycles_per_beat, phase_offset, waveform⟩
  let roll ← atomic_roll t_beats roll_params
  let pitch ← atomic_pitch t_beats pitch_params
  let yaw ← atomic_yaw t_beats yaw_params
  let antennas ← antennaDispatch antenna_move_name t_beats antenna_params
  pure (combine_offsets [roll, pitch, yaw, antennas])

/-- Model of `move_sharp_side_tilt`. -/
noncomputable def move_sharp_side_tilt (t_beats roll_amplitude_rad
    antenna_amplitude_rad subcycles_per_beat : ℝ) (antenna_move_name : String)
    (phase_offset : ℝ) (waveform : String) : Except String MoveOffsets := do
  let base_params : OscillationParams :=
    ⟨roll_amplitude_rad, subcycles_per_beat, phase_offset, waveform⟩
  let antenna_params : OscillationParams :=
    ⟨antenna_amplitude_rad, subcycles_per_beat, phase_offset, waveform⟩
  let base ← atomic_roll t_beats base_params
  let antennas ← antennaDispatch antenna_move_name t_beats antenna_params
  pure (combine_offsets [base, antennas])

/-- Model of `move_side_peekaboo`; the local `ease` uses the clipped
smoothstep and `excited_nod` a clipped sine; the six branches of the ten-beat
cycle each write explicit entries of the position and orientation arrays. -/
noncomputable def move_side_peekaboo (t_beats z_amp y_amp pitch_amp
    antenna_amplitude_rad : ℝ) (antenna_move_name : String)
    (subcycles_per_beat : ℝ) : Except String MoveOffsets := do
  let period : ℝ := 10
  let t_in_period := pymod t_beats period
  let ease : ℝ → ℝ := fun t => smoothstepEase (clip t 0 1)
  let excited_nod : ℝ → ℝ := fun t => pitch_amp * Real.sin (clip t 0 1 * Real.pi)
  let po : List ℝ × List ℝ :=
    if t_in_period < 1 then
      let t := t_in_period / 1
      ([0, 0, -z_amp * ease t], [0, 0, 0])
    else if t_in_period < 3 then
      let t := (t_in_period - 1) / 2
      ([0, y_amp * ease t, -z_amp * (1 - ease t)], [0, excited_nod t, 0])
    else if t_in_period < 5 then
      let t := (t_in_period - 3) / 2
      ([0, y_amp * (1 - ease t), -z_amp * ease t], [0, 0, 0])
    else if t_in_period < 7 then
      let t := (t_in_period - 5) / 2
      ([0, -y_amp * ease t, -z_amp * (1 - ease t)], [0, -excited_nod t, 0])
    else if t_in_period < 9 then
      let t := (t_in_period - 7) / 2
      ([0, -y_amp * (1 - ease t), -z_amp * ease t], [0, 0, 0])
    else
      let t := (t_in_period - 9) / 1
      ([0, 0, -z_amp * (1 - ease t)], [0, 0, 0])
  let antenna_params : OscillationParams :=
    ⟨antenna_amplitude_rad, subcycles_per_beat, 0, "sin"⟩
  let antennas ← antennaDispatch antenna_move_name t_beats antenna_params
  pure (combine_offsets [⟨po.1, po.2, vzeros 2⟩, antennas])

/-- Model of `move_yeah_nod`. -/
noncomputable def move_yeah_nod (t_beats amplitude_rad antenna_amplitude_rad
    subcycles_per_beat : ℝ) (antenna_move_name : String) :
    Except String MoveOffsets := do
  let repeat_every := 1 / subcycles_per_beat
  let nod1_params : TransientParams ℝ :=
    ⟨amplitude_rad, repeat_every * 0.4, 0, repeat_every⟩
  let nod2_params : TransientParams ℝ :=
    ⟨amplitude_rad * 0.7, repeat_every * 0.3, repeat_every * 0.5, repeat_every⟩
  let nod1 := transient_motion t_beats nod1_params
  let nod2 := transient_motion t_beats nod2_params
  let base : MoveOffsets := ⟨vzeros 3, [0, nod1 + nod2, 0], vzeros 2⟩
  let antenna_params : OscillationParams :=
    ⟨antenna_amplitude_rad, subcycles_per_beat, 0, "sin"⟩
  let antennas ← antennaDispatch antenna_move_name t_beats antenna_params
  pure (combine_offsets [base, antennas])

/-- Model of `move_uh_huh_tilt`. -/
noncomputable def move_uh_huh_tilt (t_beats amplitude_rad antenna_amplitude_rad
    subcycles_per_beat : ℝ) (antenna_move_name : String) (phase_offset : ℝ)
    (waveform : String) : Except String MoveOffsets := do
  let base_params : OscillationParams :=
    ⟨amplitude_rad, subcycles_per_beat, phase_offset, waveform⟩
  let antenna_params : OscillationParams :=
    ⟨antenna_amplitude_rad, subcycles_per_beat, phase_offset, waveform⟩
  let roll ← atomic_roll t_beats base_params
  let pitch ← atomic_pitch t_beats base_params
  let antennas ← antennaDispatch antenna_move_name t_beats antenna_params
  pure (combine_offsets [roll, pitch, antennas])

/-- Model of `move_neck_recoil`. -/
noncomputable def move_neck_recoil (t_beats amplitude_m antenna_amplitude_rad
    subcycles_per_beat : ℝ) (antenna_move_name : String) :
    Except String MoveOffsets := do
  let repeat_every := 1 / subcycles_per_beat
  let recoil_params : TransientParams ℝ :=
    ⟨-amplitude_m, repeat_every * 0.3, 0, repeat_every⟩
  let recoil := transient_motion t_beats recoil_params
  let base : MoveOffsets := ⟨[recoil, 0, 0], vzeros 3, vzeros 2⟩
  let antenna_params : OscillationParams :=
    ⟨antenna_amplitude_rad, subcycles_per_beat, 0, "sin"⟩
  let antennas ← antennaDispatch antenna_move_name t_beats antenna_params
  pure (combine_offsets [base, antennas])

/-- Model of `move_chin_lead`. -/
noncomputable def move_chin_lead (t_beats x_amplitude_m pitch_amplitude_rad
    antenna_amplitude_rad subcycles_per_beat : ℝ) (antenna_move_name : String)
    (phase_offset : ℝ) (waveform : String) : Except String MoveOffsets := do
  let x_move_params : OscillationParams :=
    ⟨x_amplitude_m, subcycles_per_beat, phase_offset, waveform⟩
  let pitch_move_params : OscillationParams :=
    ⟨pitch_amplitude_rad, subcycles_per_beat, phase_offset - 0.25, waveform⟩
  let antenna_params : OscillationParams :=
    ⟨antenna_amplitude_rad, subcycles_per_beat, phase_offset, waveform⟩
  let x_move ← atomic_x_pos t_beats x_move_params
  let pitch_move ← atomic_pitch t_beats pitch_move_params
  let antennas ← antennaDispatch antenna_move_name t_beats antenna_params
  pure (combine_offsets [x_move, pitch_move, antennas])

/-- Model of `move_groovy_sway_and_roll`. -/
noncomputable def move_groovy_sway_and_roll (t_beats y_amplitude_m
    roll_amplitude_rad antenna_amplitude_rad subcycles_per_beat : ℝ)
    (antenna_move_name : String) (phase_offset : ℝ) (waveform : String) :
    Except String MoveOffsets := do
  let sway_params : OscillationParams :=
    ⟨y_amplitude_m, subcycles_per_beat, phase_offset, waveform⟩
  let roll_params : OscillationParams :=
    ⟨roll_amplitude_rad, subcycles_per_beat, phase_offset + 0.25, waveform⟩
  let antenna_params : OscillationParams :=
    ⟨antenna_amplitude_rad, subcycles_per_beat, phase_offset, waveform⟩
  let sway ← atomic_y_pos t_beats sway_params
  let roll ← atomic_roll t_beats roll_params
  let antennas ← antennaDispatch antenna_move_name t_beats antenna_params
  pure (combine_offsets [sway, roll, antennas])

/-- Model of `move_chicken_peck`. -/
noncomputable def move_chicken_peck (t_beats amplitude_m antenna_amplitude_rad
    subcycles_per_beat : ℝ) (antenna_move_name : String) :
    Except String MoveOffsets := do
  let repeat_every := 1 / subcycles_per_beat
  let x_offset := transient_motion t_beats
    (⟨amplitude_m, repeat_every * 0.8, 0, repeat_every⟩ : TransientParams ℝ)
  let pitch_offset := transient_motion t_beats
    (⟨amplitude_m * 5, repeat_every * 0.8, 0, repeat_every⟩ : TransientParams ℝ)
  let base : MoveOffsets := ⟨[x_offset, 0, 0], [0, pitch_offset, 0], vzeros 2⟩
  let antenna_params : OscillationParams :=
    ⟨antenna_amplitude_rad, subcycles_per_beat, 0, "sin"⟩
  let antennas ← antennaDispatch antenna_move_name t_beats antenna_params
  pure (combine_offsets [base, antennas])

/-- Model of `move_side_glance_flick`; the local `ease` here has no clipping. -/
noncomputable def move_side_glance_flick (t_beats yaw_amplitude_rad
    antenna_amplitude_rad subcycles_per_beat : ℝ) (antenna_move_name : String) :
    Except String MoveOffsets := do
  let period := 1 / subcycles_per_beat
  let t_in_period := pymod t_beats period
  let yaw_offset : ℝ :=
    if t_in_period < 0.125 * period then
      yaw_amplitude_rad * smoothstepEase (t_in_period / (0.125 * period))
    else if t_in_period < 0.375 * period then
      yaw_amplitude_rad
    else
      yaw_amplitude_rad *
        (1 - smoothstepEase ((t_in_period - 0.375 * period) / (0.625 * period)))
  let base : MoveOffsets := ⟨vzeros 3, [0, 0, yaw_offset], vzeros 2⟩
  let antenna_params : OscillationParams :=
    ⟨antenna_amplitude_rad, subcycles_per_beat, 0, "sin"⟩
  let antennas ← antennaDispatch antenna_move_name t_beats antenna_params
  pure (combine_offsets [base, antennas])

/-- Model of `move_polyrhythm_combo`. -/
noncomputable def move_polyrhythm_combo (t_beats sway_amplitude_m
    nod_amplitude_rad antenna_amplitude_rad : ℝ) (antenna_move_name : String) :
    Except String MoveOffsets := do
  let sway_params : OscillationParams := ⟨sway_amplitude_m, 1 / 3, 0, "sin"⟩
  let nod_params : OscillationParams := ⟨nod_amplitude_rad, 1 / 2, 0, "sin"⟩
  let antenna_params : OscillationParams :=
    ⟨antenna_amplitude_rad, 1, 0, "sin"⟩
  let sway ← atomic_y_pos t_beats sway_params
  let nod ← atomic_pitch t_beats nod_params
  let antennas ← antennaDispatch antenna_move_name t_beats antenna_params
  pure (combine_offsets [sway, nod, antennas])

/-- Model of `move_grid_snap`: a five-step snap cycle in the yaw-pitch plane;
the orientation array is `[0, pitch_offset, yaw_offset]`. -/
noncomputable def move_grid_snap (t_beats amplitude_rad antenna_amplitude_rad
    subcycles_per_beat : ℝ) (antenna_move_name : String) (phase_offset : ℝ) :
    Except String MoveOffsets := do
  let period := 1 / subcycles_per_beat
  let t_in_period := pymod t_beats period
  let num_steps : ℝ := 5
  let step_duration := period / num_steps
  let current_step : ℤ := ⌊t_in_period / step_duration⌋
  let yp : ℝ × ℝ :=
    if current_step = 0 then (amplitude_rad, amplitude_rad)
    else if current_step = 1 then (amplitude_rad, -amplitude_rad)
    else if current_step = 2 then (-amplitude_rad, -amplitude_rad)
    else if current_step = 3 then (-amplitude_rad, amplitude_rad)
    else (0, 0)
  let base : MoveOffsets := ⟨vzeros 3, [0, yp.2, yp.1], vzeros 2⟩
  let antenna_params : OscillationParams :=
    ⟨antenna_amplitude_rad, subcycles_per_beat, phase_offset, "sin"⟩
  let antennas ← antennaDispatch antenna_move_name t_beats antenna_params
  pure (combine_offsets [base, antennas])

/-- Model of `move_pendulum_swing`. -/
noncomputable def move_pendulum_swing (t_beats amplitude_rad
    antenna_amplitude_rad subcycles_per_beat : ℝ) (antenna_move_name : String)
    (phase_offset : ℝ) (waveform : String) : Except String MoveOffsets := do
  let base_params : OscillationParams :=
    ⟨amplitude_rad, subcycles_per_beat, phase_offset, waveform⟩
  let antenna_params : OscillationParams :=
    ⟨antenna_amplitude_rad, subcycles_per_beat, phase_offset, waveform⟩
  let base ← atomic_roll t_beats base_params
  let antennas ← antennaDispatch antenna_move_name t_beats antenna_params
  pure (combine_offsets [base, antennas])

/-- Model of `move_jackson_square`: a five-leg rectangular path with an
alternating roll twitch; array indexing into the five path points uses the
floor of the leg time, which for a ten-beat period stays within bounds. -/
noncomputable def move_jackson_square (t_beats y_amp_m z_amp_m
    twitch_amplitude_rad antenna_amplitude_rad subcycles_per_beat : ℝ)
    (antenna_move_name : String) (z_offset_m : ℝ) :
    Except String MoveOffsets := do
  let period : ℝ := 10
  let leg_duration : ℝ := 2
  let t_in_period := pymod t_beats period
  let path_points : List (List ℝ) :=
    [[0, 0, z_offset_m],
     [0, y_amp_m, z_amp_m + z_offset_m],
     [0, -y_amp_m, z_amp_m + z_offset_m],
     [0, -y_amp_m, -z_amp_m + z_offset_m],
     [0, y_amp_m, -z_amp_m + z_offset_m]]
  let twitch_params : TransientParams ℝ :=
    ⟨twitch_amplitude_rad, 0.3, leg_duration - 0.15, leg_duration⟩
  let twitch_val := transient_motion t_beats twitch_params
  let current_leg_index : ℤ := ⌊t_in_period / leg_duration⌋
  let twitch_number : ℤ := ⌊t_beats / leg_duration⌋
  let twitch_direction : ℝ := (-1 : ℝ) ^ twitch_number
  let ori : List ℝ := [twitch_val * twitch_direction, 0, 0]
  let start_point := path_points.getD current_leg_index.toNat (vzeros 3)
  let end_point :=
    path_points.getD
      ((current_leg_index + 1) % (path_points.length : ℤ)).toNat (vzeros 3)
  let progress := pymod t_in_period leg_duration / leg_duration
  let eased_progress := smoothstepEase (clip progress 0 1)
  let pos := vadd start_point (vsmul eased_progress (vsub end_point start_point))
  let base_move : MoveOffsets := ⟨pos, ori, vzeros 2⟩
  let antenna_params : OscillationParams :=
    ⟨antenna_amplitude_rad, subcycles_per_beat, 0, "sin"⟩
  let antennas ← antennaDispatch antenna_move_name t_beats antenna_params
  pure (combine_offsets [base_move, antennas])

/-!
The `AVAILABLE_MOVES` registry.  In the source it is a single dict mapping a
move name to a tuple (function, parameter dict, metadata dict).  Here it is
split into three aligned tables: the callable table (`AVAILABLE_MOVES_fns`),
the parameter-dict table (`AVAILABLE_MOVES_params`, the only component the
source ever mutates, so the state-passing functions below thread it
explicitly), and the metadata table (`AVAILABLE_MOVES_metadata`).  Each
callable is a wrapper modelling the Python keyword-argument binding of
`move_fn(t_beats, **params)`: required arguments are read from the dict and
optional ones fall back to the signature default.
-/

/-- Type of a registered move callable: beat time and keyword dict to
offsets. -/
abbrev MoveCall := ℝ → ParamDict → Except String MoveOffsets

/-- Keyword binding for `move_simple_nod`. -/
noncomputable def call_simple_nod : MoveCall := fun t d =>
  move_simple_nod t (getNumR d "amplitude_rad") (getNumR d "antenna_amplitude_rad")
    (getNumR d "subcycles_per_beat") (getStrD d "antenna_move_name" "wiggle")
    (getNumRD d "phase_offset" 0) (getStrD d "waveform" "sin")

/-- Keyword binding for `move_head_tilt_roll`. -/
noncomputable def call_head_tilt_roll : MoveCall := fun t d =>
  move_head_tilt_roll t (getNumR d "amplitude_rad")
    (getNumR d "antenna_amplitude_rad") (getNumR d "subcycles_per_beat")
    (getStrD d "antenna_move_name" "wiggle") (getNumRD d "phase_offset" 0)
    (getStrD d "waveform" "sin")

/-- Keyword binding for `move_side_to_side_sway`. -/
noncomputable def call_side_to_side_sway : MoveCall := fun t d =>
  move_side_to_side_sway t (getNumR d "amplitude_m")
    (getNumR d "antenna_amplitude_rad") (getNumR d "subcycles_per_beat")
    (getStrD d "antenna_move_name" "wiggle") (getNumRD d "phase_offset" 0)
    (getStrD d "waveform" "sin")

/-- Keyword binding for `move_dizzy_spin`. -/
noncomputable def call_dizzy_spin : MoveCall := fun t d =>
  move_dizzy_spin t (getNumR d "roll_amplitude_rad")
    (getNumR d "pitch_amplitude_rad") (getNumR d "antenna_amplitude_rad")
    (getNumR d "subcycles_per_beat") (getStrD d "antenna_move_name" "wiggle")
    (getNumRD d "phase_offset" 0) (getStrD d "waveform" "sin")

/-- Keyword binding for `move_stumble_and_recover`. -/
noncomputable def call_stumble_and_recover : MoveCall := fun t d =>
  move_stumble_and_recover t (getNumR d "yaw_amplitude_rad")
    (getNumR d "pitch_amplitude_rad") (getNumR d "y_amplitude_m")
    (getNumR d "antenna_amplitude_rad") (getNumR d "subcycles_per_beat")
    (getStrD d "antenna_move_name" "both") (getNumRD d "phase_offset" 0)
    (getStrD d "waveform" "sin")

/-- Keyword binding for `move_headbanger_combo`. -/
noncomputable def call_headbanger_combo : MoveCall := fun t d =>
  move_headbanger_combo t (getNumR d "pitch_amplitude_rad")
    (getNumR d "z_amplitude_m") (getNumR d "antenna_amplitude_rad")
    (getNumR d "subcycles_per_beat") (getStrD d "antenna_move_name" "both")
    (getNumRD d "phase_offset" 0) (getStrD d "waveform" "sin")

/-- Keyword binding for `move_interwoven_spirals`. -/
noncomputable def call_interwoven_spirals : MoveCall := fun t d =>
  move_interwoven_spirals t (getNumR d "roll_amp") (getNumR d "pitch_amp")
    (getNumR d "yaw_amp") (getNumR d "antenna_amplitude_rad")
    (getNumR d "subcycles_per_beat") (getStrD d "antenna_move_name" "wiggle")
    (getNumRD d "phase_offset" 0) (getStrD d "waveform" "sin")

/-- Keyword binding for `move_sharp_side_tilt`. -/
noncomputable def call_sharp_side_tilt : MoveCall := fun t d =>
  move_sharp_side_tilt t (getNumR d "roll_amplitude_rad")
    (getNumR d "antenna_amplitude_rad") (getNumR d "subcycles_per_beat")
    (getStrD d "antenna_move_name" "wiggle") (getNumRD d "phase_offset" 0)
    (getStrD d "waveform" "triangle")

/-- Keyword binding for `move_side_peekaboo`. -/
noncomputable def call_side_peekaboo : MoveCall := fun t d =>
  move_side_peekaboo t (getNumR d "z_amp") (getNumR d "y_amp")
    (getNumR d "pitch_amp") (getNumR d "antenna_amplitude_rad")
    (getStrD d "antenna_move_name" "both") (getNumRD d "subcycles_per_beat" 0.5)

/-- Keyword binding for `move_yeah_nod`. -/
noncomputable def call_yeah_nod : MoveCall := fun t d =>
  move_yeah_nod t (getNumR d "amplitude_rad") (getNumR d "antenna_amplitude_rad")
    (getNumR d "subcycles_per_beat") (getStrD d "antenna_move_name" "both")

/-- Keyword binding for `move_uh_huh_tilt`. -/
noncomputable def call_uh_huh_tilt : MoveCall := fun t d =>
  move_uh_huh_tilt t (getNumR d "amplitude_rad")
    (getNumR d "antenna_amplitude_rad") (getNumR d "subcycles_per_beat")
    (getStrD d "antenna_move_name" "wiggle") (getNumRD d "phase_offset" 0)
    (getStrD d "waveform" "sin")

/-- Keyword binding for `move_neck_recoil`. -/
noncomputable def call_neck_recoil : MoveCall := fun t d =>
  move_neck_recoil t (getNumR d "amplitude_m") (getNumR d "antenna_amplitude_rad")
    (getNumR d "subcycles_per_beat") (getStrD d "antenna_move_name" "wiggle")

/-- Keyword binding for `move_chin_lead`. -/
noncomputable def call_chin_lead : MoveCall := fun t d =>
  move_chin_lead t (getNumR d "x_amplitude_m") (getNumR d "pitch_amplitude_rad")
    (getNumR d "antenna_amplitude_rad") (getNumR d "subcycles_per_beat")
    (getStrD d "antenna_move_name" "both") (getNumRD d "phase_offset" 0)
    (getStrD d "waveform" "sin")

/-- Keyword binding for `move_groovy_sway_and_roll`. -/
noncomputable def call_groovy_sway_and_roll : MoveCall := fun t d =>
  move_groovy_sway_and_roll t (getNumR d "y_amplitude_m")
    (getNumR d "roll_amplitude_rad") (getNumR d "antenna_amplitude_rad")
    (getNumR d "subcycles_per_beat") (getStrD d "antenna_move_name" "wiggle")
    (getNumRD d "phase_offset" 0) (getStrD d "waveform" "sin")

/-- Keyword binding for `move_chicken_peck`. -/
noncomputable def call_chicken_peck : MoveCall := fun t d =>
  move_chicken_peck t (getNumR d "amplitude_m")
    (getNumR d "antenna_amplitude_rad") (getNumR d "subcycles_per_beat")
    (getStrD d "antenna_move_name" "both")

/-- Keyword binding for `move_side_glance_flick`. -/
noncomputable def call_side_glance_flick : MoveCall := fun t d =>
  move_side_glance_flick t (getNumR d "yaw_amplitude_rad")
    (getNumR d "antenna_amplitude_rad") (getNumR d "subcycles_per_beat")
    (getStrD d "antenna_move_name" "wiggle")

/-- Keyword binding for `move_polyrhythm_combo`. -/
noncomputable def call_polyrhythm_combo : MoveCall := fun t d =>
  move_polyrhythm_combo t (getNumR d "sway_amplitude_m")
    (getNumR d "nod_amplitude_rad") (getNumR d "antenna_amplitude_rad")
    (getStrD d "antenna_move_name" "wiggle")

/-- Keyword binding for `move_grid_snap`. -/
noncomputable def call_grid_snap : MoveCall := fun t d =>
  move_grid_snap t (getNumR d "amplitude_rad")
    (getNumR d "antenna_amplitude_rad") (getNumR d "subcycles_per_beat")
    (getStrD d "antenna_move_name" "both") (getNumRD d "phase_offset" 0)

/-- Keyword binding for `move_pendulum_swing`. -/
noncomputable def call_pendulum_swing : MoveCall := fun t d =>
  move_pendulum_swing t (getNumR d "amplitude_rad")
    (getNumR d "antenna_amplitude_rad") (getNumR d "subcycles_per_beat")
    (getStrD d "antenna_move_name" "wiggle") (getNumRD d "phase_offset" 0)
    (getStrD d "waveform" "sin")

/-- Keyword binding for `move_jackson_square`. -/
noncomputable def call_jackson_square : MoveCall := fun t d =>
  move_jackson_square t (getNumR d "y_amp_m") (getNumR d "z_amp_m")
    (getNumR d "twitch_amplitude_rad") (getNumR d "antenna_amplitude_rad")
    (getNumR d "subcycles_per_beat") (getStrD d "antenna_move_name" "wiggle")
    (getNumRD d "z_offset_m" (-0.01))

/-- Dictionary read for the registry tables (string-keyed, any value type). -/
def assocLookup {α : Type} : List (String × α) → String → Option α
  | [], _ => none
  | (k', v) :: rest, k => if k' = k then some v else assocLookup rest k

/-- Default parameter dicts of `AVAILABLE_MOVES`, in source order.  The
`**DEFAULT_ANTENNA_PARAMS` expansion is written out; for `chin_lead` the
expansion overwrites the earlier explicit `antenna_move_name` entry back to
`wiggle`, which is reproduced here. -/
def AVAILABLE_MOVES_params : List (String × ParamDict) :=
  [("simple_nod",
    [("amplitude_rad", .degrees 20), ("subcycles_per_beat", .num 1),
     ("antenna_move_name", .str "wiggle"), ("antenna_amplitude_rad", .degrees 45)]),
   ("head_tilt_roll",
    [("amplitude_rad", .degrees 15), ("subcycles_per_beat", .num 0.5),
     ("antenna_move_name", .str "wiggle"), ("antenna_amplitude_rad", .degrees 45)]),
   ("side_to_side_sway",
    [("amplitude_m", .num 0.04), ("subcycles_per_beat", .num 0.5),
     ("antenna_move_name", .str "wiggle"), ("antenna_amplitude_rad", .degrees 45)]),
   ("dizzy_spin",
    [("roll_amplitude_rad", .degrees 15), ("pitch_amplitude_rad", .degrees 15),
     ("subcycles_per_beat", .num 0.25),
     ("antenna_move_name", .str "wiggle"), ("antenna_amplitude_rad", .degrees 45)]),
   ("stumble_and_recover",
    [("yaw_amplitude_rad", .degrees 25), ("pitch_amplitude_rad", .degrees 10),
     ("y_amplitude_m", .num 0.015), ("subcycles_per_beat", .num 0.25),
     ("antenna_move_name", .str "both"), ("antenna_amplitude_rad", .degrees 50)]),
   ("headbanger_combo",
    [("pitch_amplitude_rad", .degrees 30), ("z_amplitude_m", .num 0.015),
     ("subcycles_per_beat", .num 1), ("waveform", .str "sin"),
     ("antenna_move_name", .str "both"), ("antenna_amplitude_rad", .degrees 40)]),
   ("interwoven_spirals",
    [("roll_amp", .degrees 15), ("pitch_amp", .degrees 20),
     ("yaw_amp", .degrees 25), ("subcycles_per_beat", .num 0.125),
     ("antenna_move_name", .str "wiggle"), ("antenna_amplitude_rad", .degrees 45)]),
   ("sharp_side_tilt",
    [("roll_amplitude_rad", .degrees 22), ("subcycles_per_beat", .num 1),
     ("waveform", .str "triangle"),
     ("antenna_move_name", .str "wiggle"), ("antenna_amplitude_rad", .degrees 45)]),
   ("side_peekaboo",
    [("z_amp", .num 0.04), ("y_amp", .num 0.03), ("pitch_amp", .degrees 20),
     ("subcycles_per_beat", .num 0.5),
     ("antenna_move_name", .str "both"), ("antenna_amplitude_rad", .degrees 60)]),
   ("yeah_nod",
    [("amplitude_rad", .degrees 15), ("subcycles_per_beat", .num 1),
     ("antenna_move_name", .str "both"), ("antenna_amplitude_rad", .degrees 20)]),
   ("uh_huh_tilt",
    [("amplitude_rad", .degrees 15), ("subcycles_per_beat", .num 0.5),
     ("antenna_move_name", .str "wiggle"), ("antenna_amplitude_rad", .degrees 45)]),
   ("neck_recoil",
    [("amplitude_m", .num 0.015), ("subcycles_per_beat", .num 0.5),
     ("antenna_move_name", .str "wiggle"), ("antenna_amplitude_rad", .degrees 45)]),
   ("chin_lead",
    [("x_amplitude_m", .num 0.02), ("pitch_amplitude_rad", .degrees 15),
     ("subcycles_per_beat", .num 0.5),
     ("antenna_move_name", .str "wiggle"), ("antenna_amplitude_rad", .degrees 45)]),
   ("groovy_sway_and_roll",
    [("y_amplitude_m", .num 0.03), ("roll_amplitude_rad", .degrees 15),
     ("subcycles_per_beat", .num 0.5),
     ("antenna_move_name", .str "wiggle"), ("antenna_amplitude_rad", .degrees 45)]),
   ("chicken_peck",
    [("amplitude_m", .num 0.02), ("subcycles_per_beat", .num 1),
     ("antenna_move_name", .str "both"), ("antenna_amplitude_rad", .degrees 30)]),
   ("side_glance_flick",
    [("yaw_amplitude_rad", .degrees 45), ("subcycles_per_beat", .num 0.25),
     ("antenna_move_name", .str "wiggle"), ("antenna_amplitude_rad", .degrees 45)]),
   ("polyrhythm_combo",
    [("sway_amplitude_m", .num 0.02), ("nod_amplitude_rad", .degrees 10),
     ("antenna_amplitude_rad", .degrees 45), ("antenna_move_name", .str "wiggle")]),
   ("grid_snap",
    [("amplitude_rad", .degrees 20), ("subcycles_per_beat", .num 0.25),
     ("antenna_move_name", .str "both"), ("antenna_amplitude_rad", .degrees 10)]),
   ("pendulum_swing",
    [("amplitude_rad", .degrees 25), ("subcycles_per_beat", .num 0.25),
     ("antenna_move_name", .str "wiggle"), ("antenna_amplitude_rad", .degrees 45)]),
   ("jackson_square",
    [("y_amp_m", .num 0.035), ("z_amp_m", .num 0.025),
     ("twitch_amplitude_rad", .degrees 20), ("z_offset_m", .num (-0.01)),
     ("subcycles_per_beat", .num 0.2),
     ("antenna_move_name", .str "wiggle"), ("antenna_amplitude_rad", .degrees 45)])]

/-- Metadata dicts of `AVAILABLE_MOVES`, in source order. -/
def AVAILABLE_MOVES_metadata : List (String × ParamDict) :=
  [("simple_nod",
    [("default_duration_beats", .num 4),
     ("description", .str "A simple, continuous up-and-down nodding motion.")]),
   ("head_tilt_roll",
    [("default_duration_beats", .num 4),
     ("description", .str "A continuous side-to-side head roll (ear to shoulder).")]),
   ("side_to_side_sway",
    [("default_duration_beats", .num 4),
     ("description", .str "A smooth, side-to-side sway of the entire head.")]),
   ("dizzy_spin",
    [("default_duration_beats", .num 4),
     ("description", .str "A circular dizzy head motion combining roll and pitch.")]),
   ("stumble_and_recover",
    [("default_duration_beats", .num 4),
     ("description",
      .str "A simulated stumble and recovery with multiple axis movements. Good vibes")]),
   ("headbanger_combo",
    [("default_duration_beats", .num 4),
     ("description", .str "A strong head nod combined with a vertical bounce.")]),
   ("interwoven_spirals",
    [("default_duration_beats", .num 8),
     ("description",
      .str "A complex spiral motion using three axes at different frequencies.")]),
   ("sharp_side_tilt",
    [("default_duration_beats", .num 6),
     ("description",
      .str "A sharp, quick side-to-side tilt using a triangle waveform.")]),
   ("side_peekaboo",
    [("default_duration_beats", .num 10),
     ("description",
      .str "A multi-stage peekaboo performance, hiding and peeking to each side.")]),
   ("yeah_nod",
    [("default_duration_beats", .num 4),
     ("description", .str "An emphatic two-part yeah nod using transient motions.")]),
   ("uh_huh_tilt",
    [("default_duration_beats", .num 4),
     ("description", .str "A combined roll-and-pitch uh-huh gesture of agreement.")]),
   ("neck_recoil",
    [("default_duration_beats", .num 4),
     ("description", .str "A quick, transient backward recoil of the neck.")]),
   ("chin_lead",
    [("default_duration_beats", .num 4),
     ("description",
      .str "A forward motion led by the chin, combining translation and pitch.")]),
   ("groovy_sway_and_roll",
    [("default_duration_beats", .num 4),
     ("description",
      .str "A side-to-side sway combined with a corresponding roll for a groovy effect.")]),
   ("chicken_peck",
    [("default_duration_beats", .num 4),
     ("description", .str "A sharp, forward, chicken-like pecking motion.")]),
   ("side_glance_flick",
    [("default_duration_beats", .num 4),
     ("description", .str "A quick glance to the side that holds, then returns.")]),
   ("polyrhythm_combo",
    [("default_duration_beats", .num 6),
     ("description",
      .str "A 3-beat sway and a 2-beat nod create a polyrhythmic feel.")]),
   ("grid_snap",
    [("default_duration_beats", .num 4),
     ("description", .str "A robotic, grid-snapping motion using square waveforms.")]),
   ("pendulum_swing",
    [("default_duration_beats", .num 4),
     ("description",
      .str "A simple, smooth pendulum-like swing using a roll motion.")]),
   ("jackson_square",
    [("default_duration_beats", .num 10),
     ("description",
      .str "Traces a rectangle via a 5-point path, with sharp twitches on arrival at each checkpoint.")])]

/-- Callable table of `AVAILABLE_MOVES`, in source order. -/
noncomputable def AVAILABLE_MOVES_fns : List (String × MoveCall) :=
  [("simple_nod", call_simple_nod),
   ("head_tilt_roll", call_head_tilt_roll),
   ("side_to_side_sway", call_side_to_side_sway),
   ("dizzy_spin", call_dizzy_spin),
   ("stumble_and_recover", call_stumble_and_recover),
   ("headbanger_combo", call_headbanger_combo),
   ("interwoven_spirals", call_interwoven_spirals),
   ("sharp_side_tilt", call_sharp_side_tilt),
   ("side_peekaboo", call_side_peekaboo),
   ("yeah_nod", call_yeah_nod),
   ("uh_huh_tilt", call_uh_huh_tilt),
   ("neck_recoil", call_neck_recoil),
   ("chin_lead", call_chin_lead),
   ("groovy_sway_and_roll", call_groovy_sway_and_roll),
   ("chicken_peck", call_chicken_peck),
   ("side_glance_flick", call_side_glance_flick),
   ("polyrhythm_combo", call_polyrhythm_combo),
   ("grid_snap", call_grid_snap),
   ("pendulum_swing", call_pendulum_swing),
   ("jackson_square", call_jackson_square)]

/-- The registered move names, `list(AVAILABLE_MOVES.keys())`. -/
def moveNames : List String := AVAILABLE_MOVES_params.map Prod.fst

/-- Membership test `name in AVAILABLE_MOVES`. -/
def isRegistered (name : String) : Bool :=
  (assocLookup AVAILABLE_MOVES_params name).isSome

/-!
dance_move.py: the `DanceMove` and `Choreography` classes.  The Python
constructor binds the registry tuple by reference and then mutates the shared
parameter dict in place with `dict.update`; this aliasing is modelled by
threading the parameter-dict table through the constructor and writing the
updated dict back into it.
-/

/-- The mutable component of the registry: move name to parameter dict. -/
abbrev ParamsTable := List (String × ParamDict)

/-- Write one table entry (in place, keeping its position). -/
def assocSet {α : Type} : List (String × α) → String → α → List (String × α)
  | [], k, v => [(k, v)]
  | (k', v') :: rest, k, v =>
      if k' = k then (k', v) :: rest else (k', v') :: assocSet rest k v

/-- Class attribute `DanceMove.default_bpm = 114`. -/
def danceMoveDefaultBpm : ℚ := 114

/-- A constructed `DanceMove`: its name and the bound parameter and metadata
dicts. -/
structure DanceMove where
  name : String
  move_params : ParamDict
  move_metadata : ParamDict
  deriving DecidableEq

/-- Model of `DanceMove.__init__`: look up the registry tuple, then
`self.move_params.update(params)`, which mutates the dict that is aliased by
the registry entry, so the updated dict is written back into the table.
`none` models the KeyError for an unregistered move name. -/
def danceMoveInit (ps : ParamsTable) (move_name : String) (params : ParamDict) :
    Option (DanceMove × ParamsTable) :=
  match assocLookup ps move_name,
      assocLookup AVAILABLE_MOVES_metadata move_name with
  | some move_params, some move_metadata =>
      let updated := dictUpdate move_params params
      some (⟨move_name, updated, move_metadata⟩, assocSet ps move_name updated)
  | _, _ => none

/-- Model of the property `DanceMove.duration`: one beat at the class default
bpm times the metadata entry `default_duration_beats` (fallback 1). -/
def DanceMove.duration (m : DanceMove) : ℚ :=
  let f := danceMoveDefaultBpm / 60
  let beat_duration := 1 / f
  let nb_beats := getNumQ m.move_metadata "default_duration_beats" 1
  beat_duration * nb_beats

/-- Parsed content of a choreography json file as read by
`Choreography.__init__`: the optional `bpm` entry and the `sequence` list,
each step being a dict. -/
structure ChoreoJson where
  bpm : Option ℚ
  sequence : List ParamDict

/-- A loaded `Choreography`: tempo, constructed moves and per-step cycle
counts. -/
structure Choreography where
  bpm : ℚ
  moves : List DanceMove
  cycles : List ℚ
  deriving DecidableEq

/-- The per-step loop of `Choreography.__init__`: pop `move` and `cycles`
from the step dict, construct the `DanceMove` with the remaining entries as
overrides, and collect the cycle counts (default 1). -/
def choreoFromSteps (ps : ParamsTable) :
    List ParamDict → Option (List DanceMove × List ℚ × ParamsTable)
  | [] => some ([], [], ps)
  | st :: rest =>
      match dictLookup st "move" with
      | some (.str move_name) =>
          match danceMoveInit ps move_name
              (dictErase (dictErase st "move") "cycles") with
          | some (dm, ps') =>
              match choreoFromSteps ps' rest with
              | some (ms, cs, ps'') =>
                  some (dm :: ms, getNumQ st "cycles" 1 :: cs, ps'')
              | none => none
          | none => none
      | _ => none

/-- Model of `Choreography.__init__` on an already parsed json value. -/
def Choreography.ofJson (ps : ParamsTable) (cj : ChoreoJson) :
    Option (Choreography × ParamsTable) :=
  match choreoFromSteps ps cj.sequence with
  | some (ms, cs, ps') =>
      some (⟨cj.bpm.getD danceMoveDefaultBpm, ms, cs⟩, ps')
  | none => none

/-- Model of the property `Choreography.duration`: the sum of the move
durations. -/
def Choreography.duration (c : Choreography) : ℚ :=
  (c.moves.map DanceMove.duration).sum

/-- Modelled from the claim wording, for comparison with
`Choreography.duration`: the sum over steps of the move duration at the
choreography tempo times the cycle count, with the move duration equal to
`(60 / tempo) * defaultDurationBeats`. -/
def specClaimedDuration (c : Choreography) : ℚ :=
  ((c.moves.zip c.cycles).map
    (fun mc =>
      ((60 / c.bpm) * getNumQ mc.1.move_metadata "default_duration_beats" 1) *
        mc.2)).sum

/-!
examples/dance_demo.py: choreography loading, the shared-state edits, and the
per-tick logic of the control loop.
-/

/-- Parsed content of a choreography file as seen by `load_choreography`
after `json.load`: `bpm` if present, and the `sequence` entry, where `none`
models both a missing entry and a non-list value. -/
structure ChoreoData where
  bpm : Option ℚ
  sequence : Option (List ParamDict)

/-- The `step.get("move")` read: the name when the entry is a string. -/
def stepMoveName (st : ParamDict) : Option String :=
  match dictLookup st "move" with
  | some (.str s) => some s
  | _ => none

/-- Model of `load_choreography` on a parsed file: fail without a sequence
list, fail when any step move is not registered, else return the sequence and
the file bpm. -/
def load_choreography (data : ChoreoData) :
    Option (List ParamDict × Option ℚ) :=
  match data.sequence with
  | none => none
  | some sequence =>
      if sequence.all (fun st =>
          match stepMoveName st with
          | some s => isRegistered s
          | none => false) then
        some (sequence, data.bpm)
      else
        none

/-- One drained batch of `SharedState.get_and_clear_changes`. -/
structure Changes where
  next_move : Bool
  prev_move : Bool
  next_waveform : Bool
  bpm_change : ℚ
  amplitude_change : ℚ

/-- The mutable loop variables of `main` that the claims are about. -/
structure DemoState where
  running : Bool
  current_move_idx : ℕ
  current_waveform_idx : ℕ
  t_beats : ℚ
  sequence_beat_counter : ℚ
  choreography_step_idx : ℕ
  step_beat_counter : ℚ
  bpm : ℚ
  amplitude_scale : ℚ

/-- The demo waveform cycle list, in its source order. -/
def waveforms : List String := ["sin", "cos", "triangle", "square", "sawtooth"]

/-- Configuration fields of the demo used by the per-tick logic. -/
structure DemoConfig where
  neutral_pos : List ℝ
  neutral_eul : List ℝ
  beats_per_sequence : ℚ

/-- Model of the change-application block at the top of each loop tick:
tempo and amplitude deltas with their floors, waveform cycling, and the
mode-dependent navigation (in choreography mode the step index, in
interactive mode the move cursor, each resetting its own counter). -/
def applyChanges (choreography_mode : Bool) (nsteps : ℕ) (ch : Changes)
    (st : DemoState) : DemoState :=
  let st1 := if ch.bpm_change ≠ 0 then
    { st with bpm := max 20 (st.bpm + ch.bpm_change) } else st
  let st2 := if ch.amplitude_change ≠ 0 then
    { st1 with amplitude_scale := max 0.1 (st1.amplitude_scale + ch.amplitude_change) }
    else st1
  let st3 := if ch.next_waveform then
    { st2 with current_waveform_idx := (st2.current_waveform_idx + 1) % waveforms.length }
    else st2
  if choreography_mode then
    let st4 := if ch.next_move then
      { st3 with choreography_step_idx := (st3.choreography_step_idx + 1) % nsteps,
                 step_beat_counter := 0 } else st3
    if ch.prev_move then
      { st4 with choreography_step_idx := (st4.choreography_step_idx + nsteps - 1) % nsteps,
                 step_beat_counter := 0 } else st4
  else
    let st4 := if ch.next_move then
      { st3 with current_move_idx := (st3.current_move_idx + 1) % moveNames.length,
                 sequence_beat_counter := 0 } else st3
    if ch.prev_move then
      { st4 with current_move_idx := (st4.current_move_idx + moveNames.length - 1) % moveNames.length,
                 sequence_beat_counter := 0 } else st4

/-- The choreography-mode step bookkeeping of one tick: read the current
step, compute its target beats (`cycles / subcycles_per_beat` when the
subcycle rate is positive, else `cycles`), accumulate the frame beats, and
advance to the next step exactly when the counter reaches the target.
Returns the (pre-advance) step move name with the new index and counter;
errors model the Python KeyError and TypeError paths. -/
def choreoStepUpdate (seq : List ParamDict) (st : DemoState) (delta : ℚ) :
    Except String (String × ℕ × ℚ) :=
  let current_step := seq.getD st.choreography_step_idx []
  match dictLookup current_step "move" with
  | some (.str move_name) =>
      match assocLookup AVAILABLE_MOVES_params move_name with
      | some params =>
          match dictLookup current_step "cycles" with
          | some (.num target_cycles) =>
              let subcycles_per_beat := getNumQ params "subcycles_per_beat" 1
              let target_beats := if 0 < subcycles_per_beat then
                target_cycles / subcycles_per_beat else target_cycles
              let counter := st.step_beat_counter + delta
              if target_beats ≤ counter then
                .ok (move_name, (st.choreography_step_idx + 1) % seq.length, 0)
              else
                .ok (move_name, st.choreography_step_idx, counter)
          | _ => .error "KeyError: cycles"
      | none => .error ("KeyError: " ++ move_name)
  | _ => .error "KeyError: move"

/-- Scaling a parameter value by the amplitude scale; for `degrees q` the
source multiplies the float `np.deg2rad(q)`, which by linearity equals
`np.deg2rad(q * s)`.  A string value is never scaled for the registry dicts
(no string-valued key contains `amplitude` or `_amp`). -/
def PValue.scaleBy (s : ℚ) : PValue → PValue
  | .num q => .num (q * s)
  | .degrees q => .degrees (q * s)
  | .str t => .str t

/-- Containment of one character list in another, for the Python substring
test `"amplitude" in key`. -/
def hasSublist (needle : List Char) : List Char → Bool
  | [] => needle.isEmpty
  | c :: rest => needle.isPrefixOf (c :: rest) || hasSublist needle rest

/-- The amplitude-key test of the scaling loop: the key contains `amplitude`
or `_amp` as a substring. -/
def isAmplitudeKey (k : String) : Bool :=
  hasSublist "amplitude".toList k.toList || hasSublist "_amp".toList k.toList

/-- The scaling loop over `current_params`. -/
def scaleAmplitudeParams (s : ℚ) (d : ParamDict) : ParamDict :=
  d.map (fun kv => if isAmplitudeKey kv.1 then (kv.1, kv.2.scaleBy s) else kv)

/-- A pose command submitted to the robot: the arguments of
`mini.set_target(create_head_pose(*pos, *eul), antennas)`. -/
inductive TickCommand where
  | setTarget (pos : List ℝ) (eul : List ℝ) (antennas : List ℝ)

/-- The evaluation tail of a running tick: copy the registry defaults,
substitute the cycled waveform when the move has a `waveform` parameter,
scale every amplitude-like parameter, call the move, and add the offsets to
the neutral pose. -/
noncomputable def evalMoveCommand (cfg : DemoConfig) (move_name : String)
    (t_motion : ℚ) (waveform_idx : ℕ) (final_amplitude_scale : ℚ) :
    Except String TickCommand :=
  let waveform := waveforms.getD waveform_idx ""
  match assocLookup AVAILABLE_MOVES_fns move_name,
      assocLookup AVAILABLE_MOVES_params move_name with
  | some move_fn, some base_params =>
      let withWave := if (dictLookup base_params "waveform").isSome then
        dictSet base_params "waveform" (.str waveform) else base_params
      let current_params := scaleAmplitudeParams final_amplitude_scale withWave
      match move_fn (t_motion : ℝ) current_params with
      | .ok offsets =>
          .ok (.setTarget (vadd cfg.neutral_pos offsets.position_offset)
            (vadd cfg.neutral_eul offsets.orientation_offset)
            offsets.antennas_offset)
      | .error e => .error e
  | _, _ => .error ("KeyError: " ++ move_name)

/-- The motion part of one loop tick, after the changes were applied: when
paused, emit the neutral pose with zero antennas and leave the state alone;
otherwise convert the wall-clock delta to beats and run the mode-specific
sequencing and evaluation. -/
noncomputable def motionTick (cfg : DemoConfig) (choreo : Option (List ParamDict))
    (st : DemoState) (dt : ℚ) : Except String TickCommand × DemoState :=
  if st.running = false then
    (.ok (.setTarget cfg.neutral_pos cfg.neutral_eul (vzeros 2)), st)
  else
    let beats_this_frame := dt * (st.bpm / 60)
    match choreo with
    | some seq =>
        match choreoStepUpdate seq st beats_this_frame with
        | .ok (move_name, idx', counter') =>
            let current_step := seq.getD st.choreography_step_idx []
            let st' := { st with choreography_step_idx := idx',
                                 step_beat_counter := counter' }
            let step_amplitude_modifier := getNumQ current_step "amplitude" 1
            (evalMoveCommand cfg move_name counter' st.current_waveform_idx
              (st.amplitude_scale * step_amplitude_modifier), st')
        | .error e => (.error e, st)
    | none =>
        let c := st.sequence_beat_counter + beats_this_frame
        let ic := if cfg.beats_per_sequence ≤ c then
          ((st.current_move_idx + 1) % moveNames.length, (0 : ℚ)) else
          (st.current_move_idx, c)
        let move_name := moveNames.getD ic.1 ""
        let t := st.t_beats + beats_this_frame
        let st' := { st with current_move_idx := ic.1,
                             sequence_beat_counter := ic.2, t_beats := t }
        (evalMoveCommand cfg move_name t st.current_waveform_idx
          st.amplitude_scale, st')

/-- One full loop tick: drain and apply the queued changes, then run the
motion part. -/
noncomputable def fullTick (cfg : DemoConfig) (choreo : Option (List ParamDict))
    (ch : Changes) (st : DemoState) (dt : ℚ) :
    Except String TickCommand × DemoState :=
  motionTick cfg choreo
    (applyChanges choreo.isSome (choreo.getD []).length ch st) dt

/-!
Predicates used by the offset-shape statements, and concrete inputs used by
the counterexample theorems.
-/

/-- The shape invariant of a `MoveOffsets`: position (3,), orientation (3,),
antennas (2,). -/
def Shaped (off : MoveOffsets) : Prop :=
  off.position_offset.length = 3 ∧ off.orientation_offset.length = 3 ∧
    off.antennas_offset.length = 2

/-- A successful evaluation producing offsets of the standard shapes. -/
def ShapedOk (e : Except String MoveOffsets) : Prop :=
  ∃ off, e = .ok off ∧ Shaped off

/-- Two parameter values of the same kind (both numeric or both strings);
overrides of the same kind keep the Python call well typed. -/
def PValue.sameKind : PValue → PValue → Bool
  | .str _, .str _ => true
  | .str _, _ => false
  | _, .str _ => false
  | _, _ => true

/-- An override dict for the same keys as the defaults: distinct keys, each
already present among the defaults with a value of the same kind. -/
def OverridesValid (defaults ov : ParamDict) : Prop :=
  (ov.map Prod.fst).Nodup ∧
  ∀ kv ∈ ov, ∃ v0, dictLookup defaults kv.1 = some v0 ∧
    PValue.sameKind v0 kv.2 = true

/-- Every antenna style name in the dict is one of the two registered
styles. -/
def AntennaOk (d : ParamDict) : Prop :=
  ∀ s, dictLookup d "antenna_move_name" = some (.str s) →
    s = "wiggle" ∨ s = "both"

/-- Every waveform name in the dict is recognized. -/
def WaveformOk (d : ParamDict) : Prop :=
  ∀ s, dictLookup d "waveform" = some (.str s) → s ∈ recognizedWaveforms

/-- Any subcycle rate in the dict is positive (a zero rate would be a Python
ZeroDivisionError inside the moves that divide by it). -/
def SubsPos (d : ParamDict) : Prop :=
  ∀ v, dictLookup d "subcycles_per_beat" = some v → 0 < v.toReal

/-- A parsed choreography json with tempo 60 and one step playing
`simple_nod` for 2 cycles. -/
def cexChoreoJson : ChoreoJson :=
  ⟨some 60, [[("move", PValue.str "simple_nod"), ("cycles", PValue.num 2)]]⟩

/-- The choreography that loading `cexChoreoJson` produces. -/
def cexChoreo : Choreography :=
  ⟨60,
   [⟨"simple_nod", (assocLookup AVAILABLE_MOVES_params "simple_nod").getD [],
     (assocLookup AVAILABLE_MOVES_metadata "simple_nod").getD []⟩],
   [2]⟩

/-- A parsed choreography file whose single step names a registered move but
carries an unsupported waveform override. -/
def cexWaveChoreoData : ChoreoData :=
  ⟨none,
   some [[("move", PValue.str "simple_nod"), ("cycles", PValue.num 1),
          ("waveform", PValue.str "blah")]]⟩
/-- The conjunction of the spec statements about `transient_motion` for one
parameter record: zero outside the window, the smoothstep ramp inside it, the
easing value 1 at the window end, the floor-based characterization of the
window start, and periodicity under a positive repeat interval. -/
def TransientSpecProps (p : TransientParams ℚ) : Prop :=
  (∀ t : ℚ, t < transientStart t p → transient_motion t p = 0) ∧
  (∀ t : ℚ, transientStart t p + p.duration_in_beats ≤ t →
    transient_motion t p = 0) ∧
  (∀ t : ℚ, transientStart t p ≤ t →
    t < transientStart t p + p.duration_in_beats →
    transient_motion t p =
      p.amplitude * smoothstepEase ((t - transientStart t p) / p.duration_in_beats)) ∧
  p.amplitude * smoothstepEase 1 = p.amplitude ∧
  (p.repeat_every ≤ 0 → ∀ t : ℚ, transientStart t p = p.delay_beats) ∧
  (0 < p.repeat_every → ∀ t : ℚ,
    transientStart t p ≤ t ∧
    (∃ k : ℤ, transientStart t p = p.delay_beats + k * p.repeat_every) ∧
    (∀ k : ℤ, p.delay_beats + k * p.repeat_every ≤ t →
      p.delay_beats + k * p.repeat_every ≤ transientStart t p)) ∧
  (0 < p.repeat_every → ∀ t : ℚ,
    transient_motion (t + p.repeat_every) p = transient_motion t p)

/-!
General lemmas: dictionary operations, merge semantics, and offset shapes.
-/

/-- Key lemma for `dictSet`: reading the written key gives the new value. -/
theorem dictLookup_dictSet_self (d : ParamDict) (k : String) (v : PValue) :
    dictLookup (dictSet d k v) k = some v := by
  induction d with
  | nil => simp [dictSet, dictLookup]
  | cons kv rest ih =>
      by_cases h : kv.1 = k
      · simp [dictSet, dictLookup, h]
      · simp [dictSet, dictLookup, h, ih]

/-- Key lemma for `dictSet`: reading another key is unchanged. -/
theorem dictLookup_dictSet_other (d : ParamDict) (k k' : String) (v : PValue)
    (hne : k ≠ k') : dictLookup (dictSet d k v) k' = dictLookup d k' := by
  induction d with
  | nil => simp [dictSet, dictLookup, hne]
  | cons kv rest ih =>
      by_cases h : kv.1 = k
      · simp [dictSet, dictLookup, h, hne]
      · simp [dictSet, dictLookup, h, ih]

/-- Reading a key not written by the update is unchanged. -/
theorem dictLookup_dictUpdate_notMem (d ov : ParamDict) (k : String)
    (h : dictLookup ov k = none) :
    dictLookup (dictUpdate d ov) k = dictLookup d k := by
  induction ov generalizing d with
  | nil => simp [dictUpdate]
  | cons kv rest ih =>
      simp only [dictLookup] at h
      by_cases hk : kv.1 = k
      · simp [hk] at h
      · simp only [dictUpdate]
        rw [ih _ (by simpa [hk] using h), dictLookup_dictSet_other _ _ _ _ hk]

/-- A successful lookup means the key occurs in the dict. -/
theorem dictLookup_some_mem (d : ParamDict) (k : String) (v : PValue)
    (h : dictLookup d k = some v) : k ∈ d.map Prod.fst := by
  induction d with
  | nil => simp [dictLookup] at h
  | cons kv rest ih =>
      simp only [dictLookup] at h
      by_cases h2 : kv.1 = k
      · simp [h2]
      · simp only [h2, if_false] at h
        simp [ih h]

/-- Reading a key written by the update gives the override value, provided the
override keys are distinct. -/
theorem dictLookup_dictUpdate_mem (d ov : ParamDict) (k : String) (v : PValue)
    (hnd : (ov.map Prod.fst).Nodup) (h : dictLookup ov k = some v) :
    dictLookup (dictUpdate d ov) k = some v := by
  induction ov generalizing d with
  | nil => simp [dictLookup] at h
  | cons kv rest ih =>
      simp only [List.map_cons, List.nodup_cons] at hnd
      simp only [dictLookup] at h
      by_cases hk : kv.1 = k
      · simp only [hk, if_true] at h
        cases h
        have hnone : dictLookup rest k = none := by
          cases hrest : dictLookup rest k with
          | none => rfl
          | some w =>
              exact absurd (hk ▸ dictLookup_some_mem rest k w hrest) hnd.1
        simp only [dictUpdate]
        rw [dictLookup_dictUpdate_notMem _ _ _ hnone, hk,
          dictLookup_dictSet_self]
      · simp only [hk, if_false] at h
        simp only [dictUpdate]
        exact ih _ hnd.2 h


/-- A successful lookup gives a binding that occurs in the dict. -/
theorem dictLookup_some_pair_mem (d : ParamDict) (k : String) (v : PValue)
    (h : dictLookup d k = some v) : (k, v) ∈ d := by
  induction d with
  | nil => simp [dictLookup] at h
  | cons kv rest ih =>
      simp only [dictLookup] at h
      by_cases h2 : kv.1 = k
      · simp only [h2, if_true, Option.some.injEq] at h
        subst h
        rw [← h2]
        simp
      · simp only [h2, if_false] at h
        simp [ih h]

/-- Merging overrides of the same keys keeps a string-valued key
string-valued. -/
theorem dictUpdate_str_preserved (defaults ov : ParamDict) (k : String)
    (s0 : String) (hval : OverridesValid defaults ov)
    (h : dictLookup defaults k = some (.str s0)) :
    ∃ s, dictLookup (dictUpdate defaults ov) k = some (.str s) := by
  cases hov : dictLookup ov k with
  | none => exact ⟨s0, by rw [dictLookup_dictUpdate_notMem _ _ _ hov, h]⟩
  | some w =>
      obtain ⟨v0, hv0, hsk⟩ := hval.2 _ (dictLookup_some_pair_mem ov k w hov)
      rw [h, Option.some.injEq] at hv0
      subst hv0
      cases w with
      | str s => exact ⟨s, dictLookup_dictUpdate_mem _ _ _ _ hval.1 hov⟩
      | num q => simp [PValue.sameKind] at hsk
      | degrees q => simp [PValue.sameKind] at hsk

/-- Merging overrides of the same keys cannot create a key absent from the
defaults. -/
theorem dictUpdate_none_preserved (defaults ov : ParamDict) (k : String)
    (hval : OverridesValid defaults ov) (h : dictLookup defaults k = none) :
    dictLookup (dictUpdate defaults ov) k = none := by
  cases hov : dictLookup ov k with
  | none => rw [dictLookup_dictUpdate_notMem _ _ _ hov, h]
  | some w =>
      obtain ⟨v0, hv0, _⟩ := hval.2 _ (dictLookup_some_pair_mem ov k w hov)
      rw [h] at hv0
      cases hv0

/-- Reading a present string entry ignores the fallback. -/
theorem getStrD_eq_of_str (d : ParamDict) (k : String) (s dflt : String)
    (h : dictLookup d k = some (.str s)) : getStrD d k dflt = s := by
  simp [getStrD, h]

/-- Reading an absent entry gives the fallback. -/
theorem getStrD_eq_of_none (d : ParamDict) (k : String) (dflt : String)
    (h : dictLookup d k = none) : getStrD d k dflt = dflt := by
  simp [getStrD, h]

/-- Elementwise addition keeps the common length. -/
theorem vadd_length (a b : List ℝ) : (vadd a b).length = min a.length b.length := by
  simp [vadd]

/-- Folding elementwise addition over arrays of length n keeps length n. -/
theorem foldl_vadd_length (n : ℕ) (l : List (List ℝ)) (acc : List ℝ)
    (hacc : acc.length = n) (hl : ∀ x ∈ l, x.length = n) :
    (l.foldl vadd acc).length = n := by
  induction l generalizing acc with
  | nil => simpa using hacc
  | cons x xs ih =>
      simp only [List.foldl_cons]
      refine ih _ ?_ (fun y hy => hl y (by simp [hy]))
      rw [vadd_length, hacc, hl x (by simp)]
      simp

/-- `combine_offsets` preserves the standard shapes. -/
theorem shaped_combine (l : List MoveOffsets) (h : ∀ o ∈ l, Shaped o) :
    Shaped (combine_offsets l) := by
  cases l with
  | nil =>
      exact ⟨by simp [combine_offsets, vzeros], by simp [combine_offsets, vzeros],
        by simp [combine_offsets, vzeros]⟩
  | cons o rest =>
      refine ⟨?_, ?_, ?_⟩
      · show ((List.map MoveOffsets.position_offset (o :: rest)).foldl vadd
          (vzeros 3)).length = 3
        refine foldl_vadd_length 3 _ _ (by simp [vzeros]) ?_
        intro x hx
        obtain ⟨a, ha, rfl⟩ := List.mem_map.mp hx
        exact (h a ha).1
      · show ((List.map MoveOffsets.orientation_offset (o :: rest)).foldl vadd
          (vzeros 3)).length = 3
        refine foldl_vadd_length 3 _ _ (by simp [vzeros]) ?_
        intro x hx
        obtain ⟨a, ha, rfl⟩ := List.mem_map.mp hx
        exact (h a ha).2.1
      · show ((List.map MoveOffsets.antennas_offset (o :: rest)).foldl vadd
          (vzeros 2)).length = 2
        refine foldl_vadd_length 2 _ _ (by simp [vzeros]) ?_
        intro x hx
        obtain ⟨a, ha, rfl⟩ := List.mem_map.mp hx
        exact (h a ha).2.2

/-- Two-element version of `shaped_combine`. -/
theorem shaped_combine_two (a b : MoveOffsets) (ha : Shaped a) (hb : Shaped b) :
    Shaped (combine_offsets [a, b]) := by
  refine shaped_combine _ ?_
  intro o ho
  simp only [List.mem_cons, List.not_mem_nil, or_false] at ho
  rcases ho with rfl | rfl
  · exact ha
  · exact hb

/-- Three-element version of `shaped_combine`. -/
theorem shaped_combine_three (a b c : MoveOffsets) (ha : Shaped a)
    (hb : Shaped b) (hc : Shaped c) : Shaped (combine_offsets [a, b, c]) := by
  refine shaped_combine _ ?_
  intro o ho
  simp only [List.mem_cons, List.not_mem_nil, or_false] at ho
  rcases ho with rfl | rfl | rfl
  · exact ha
  · exact hb
  · exact hc

/-- Four-element version of `shaped_combine`. -/
theorem shaped_combine_four (a b c d : MoveOffsets) (ha : Shaped a)
    (hb : Shaped b) (hc : Shaped c) (hd : Shaped d) :
    Shaped (combine_offsets [a, b, c, d]) := by
  refine shaped_combine _ ?_
  intro o ho
  simp only [List.mem_cons, List.not_mem_nil, or_false] at ho
  rcases ho with rfl | rfl | rfl | rfl
  · exact ha
  · exact hb
  · exact hc
  · exact hd

/-- Every recognized waveform evaluates successfully. -/
theorem osc_ok (t : ℝ) (p : OscillationParams)
    (hw : p.waveform ∈ recognizedWaveforms) :
    ∃ v, oscillation_motion t p = .ok v := by
  simp only [recognizedWaveforms, List.mem_cons, List.not_mem_nil, or_false] at hw
  unfold oscillation_motion
  rcases hw with h | h | h | h | h <;> rw [h]
  · exact ⟨_, rfl⟩
  · exact ⟨_, rfl⟩
  · exact ⟨_, rfl⟩
  · exact ⟨_, rfl⟩
  · exact ⟨_, rfl⟩

/-- The antenna dispatch succeeds with well-shaped offsets for the two
registered styles and a recognized waveform. -/
theorem antenna_shaped (nm : String) (t : ℝ) (p : OscillationParams)
    (hn : nm = "wiggle" ∨ nm = "both") (hw : p.waveform ∈ recognizedWaveforms) :
    ∃ off, antennaDispatch nm t p = .ok off ∧ Shaped off := by
  obtain ⟨v, hv⟩ := osc_ok t p hw
  rcases hn with h | h <;> subst h
  · refine ⟨⟨vzeros 3, vzeros 3, [v, -v]⟩, ?_, by simp [Shaped, vzeros]⟩
    simp [antennaDispatch, AVAILABLE_ANTENNA_MOVES, antennaLookup,
      atomic_antenna_wiggle, hv, Except.map]
  · refine ⟨⟨vzeros 3, vzeros 3, [v, v]⟩, ?_, by simp [Shaped, vzeros]⟩
    simp [antennaDispatch, AVAILABLE_ANTENNA_MOVES, antennaLookup,
      atomic_antenna_both, hv, Except.map]

/-- Shape of `move_simple_nod` under valid style and waveform names. -/
theorem shaped_move_simple_nod (t a b c ph : ℝ) (nm wf : String)
    (hn : nm = "wiggle" ∨ nm = "both") (hw : wf ∈ recognizedWaveforms) :
    ShapedOk (move_simple_nod t a b c nm ph wf) := by
  obtain ⟨v1, hv1⟩ := osc_ok t ⟨a, c, ph, wf⟩ hw
  obtain ⟨o2, ho2, hs2⟩ := antenna_shaped nm t ⟨b, c, ph, wf⟩ hn hw
  refine ⟨_, ?_, shaped_combine_two ⟨vzeros 3, [0, v1, 0], vzeros 2⟩ o2
    (by simp [Shaped, vzeros]) hs2⟩
  simp [move_simple_nod, atomic_pitch, hv1, ho2, Except.map, bind, Except.bind,
    pure, Except.pure]

/-- Scalar broadcast keeps the length. -/
theorem vsmul_length (c : ℝ) (a : List ℝ) : (vsmul c a).length = a.length := by
  simp [vsmul]

/-- Elementwise subtraction keeps the common length. -/
theorem vsub_length (a b : List ℝ) : (vsub a b).length = min a.length b.length := by
  simp [vsub]

/-- Indexing a list of length-3 arrays with any index and a length-3 default
gives a length-3 array. -/
theorem getD_length_three : ∀ (ps : List (List ℝ)),
    (∀ x ∈ ps, x.length = 3) → ∀ n, (ps.getD n (vzeros 3)).length = 3
  | [], _, n => by simp [List.getD, vzeros]
  | x :: _, h, 0 => by simpa using h x (by simp)
  | x :: rest, h, n + 1 => by
      simpa [List.getD] using
        getD_length_three rest (fun y hy => h y (by simp [hy])) n

/-- Shape of `move_head_tilt_roll`. -/
theorem shaped_move_head_tilt_roll (t a b c ph : ℝ) (nm wf : String)
    (hn : nm = "wiggle" ∨ nm = "both") (hw : wf ∈ recognizedWaveforms) :
    ShapedOk (move_head_tilt_roll t a b c nm ph wf) := by
  obtain ⟨v1, hv1⟩ := osc_ok t ⟨a, c, ph, wf⟩ hw
  obtain ⟨o2, ho2, hs2⟩ := antenna_shaped nm t ⟨b, c, ph, wf⟩ hn hw
  simp only [move_head_tilt_roll, atomic_roll, hv1, ho2, Except.map, bind,
    Except.bind, pure, Except.pure]
  exact ⟨_, rfl, shaped_combine_two _ _ (by simp [Shaped, vzeros]) hs2⟩

/-- Shape of `move_side_to_side_sway`. -/
theorem shaped_move_side_to_side_sway (t a b c ph : ℝ) (nm wf : String)
    (hn : nm = "wiggle" ∨ nm = "both") (hw : wf ∈ recognizedWaveforms) :
    ShapedOk (move_side_to_side_sway t a b c nm ph wf) := by
  obtain ⟨v1, hv1⟩ := osc_ok t ⟨a, c, ph, wf⟩ hw
  obtain ⟨o2, ho2, hs2⟩ := antenna_shaped nm t ⟨b, c, ph, wf⟩ hn hw
  simp only [move_side_to_side_sway, atomic_y_pos, hv1, ho2, Except.map, bind,
    Except.bind, pure, Except.pure]
  exact ⟨_, rfl, shaped_combine_two _ _ (by simp [Shaped, vzeros]) hs2⟩

/-- Shape of `move_dizzy_spin`. -/
theorem shaped_move_dizzy_spin (t a1 a2 b c ph : ℝ) (nm wf : String)
    (hn : nm = "wiggle" ∨ nm = "both") (hw : wf ∈ recognizedWaveforms) :
    ShapedOk (move_dizzy_spin t a1 a2 b c nm ph wf) := by
  obtain ⟨v1, hv1⟩ := osc_ok t ⟨a1, c, ph, wf⟩ hw
  obtain ⟨v2, hv2⟩ := osc_ok t ⟨a2, c, ph + 0.25, wf⟩ hw
  obtain ⟨o3, ho3, hs3⟩ := antenna_shaped nm t ⟨b, c, ph, wf⟩ hn hw
  simp only [move_dizzy_spin, atomic_roll, atomic_pitch, hv1, hv2, ho3,
    Except.map, bind, Except.bind, pure, Except.pure]
  exact ⟨_, rfl, shaped_combine_three _ _ _ (by simp [Shaped, vzeros])
    (by simp [Shaped, vzeros]) hs3⟩

/-- Shape of `move_stumble_and_recover`. -/
theorem shaped_move_stumble_and_recover (t a1 a2 a3 b c ph : ℝ) (nm wf : String)
    (hn : nm = "wiggle" ∨ nm = "both") (hw : wf ∈ recognizedWaveforms) :
    ShapedOk (move_stumble_and_recover t a1 a2 a3 b c nm ph wf) := by
  obtain ⟨v1, hv1⟩ := osc_ok t ⟨a1, c, ph, wf⟩ hw
  obtain ⟨v2, hv2⟩ := osc_ok t ⟨a2, c * 2, ph, wf⟩ hw
  obtain ⟨v3, hv3⟩ := osc_ok t ⟨a3, c, ph + 0.5, wf⟩ hw
  obtain ⟨o4, ho4, hs4⟩ := antenna_shaped nm t ⟨b, c, ph, wf⟩ hn hw
  simp only [move_stumble_and_recover, atomic_yaw, atomic_pitch, atomic_y_pos,
    hv1, hv2, hv3, ho4, Except.map, bind, Except.bind, pure, Except.pure]
  exact ⟨_, rfl, shaped_combine_four _ _ _ _ (by simp [Shaped, vzeros])
    (by simp [Shaped, vzeros]) (by simp [Shaped, vzeros]) hs4⟩

/-- Shape of `move_headbanger_combo`. -/
theorem shaped_move_headbanger_combo (t a1 a2 b c ph : ℝ) (nm wf : String)
    (hn : nm = "wiggle" ∨ nm = "both") (hw : wf ∈ recognizedWaveforms) :
    ShapedOk (move_headbanger_combo t a1 a2 b c nm ph wf) := by
  obtain ⟨v1, hv1⟩ := osc_ok t ⟨a1, c, ph, wf⟩ hw
  obtain ⟨v2, hv2⟩ := osc_ok t ⟨a2, c, ph + 0.1, wf⟩ hw
  obtain ⟨o3, ho3, hs3⟩ := antenna_shaped nm t ⟨b, c, ph, wf⟩ hn hw
  simp only [move_headbanger_combo, atomic_pitch, atomic_z_pos, hv1, hv2, ho3,
    Except.map, bind, Except.bind, pure, Except.pure]
  exact ⟨_, rfl, shaped_combine_three _ _ _ (by simp [Shaped, vzeros])
    (by simp [Shaped, vzeros]) hs3⟩

/-- Shape of `move_interwoven_spirals`. -/
theorem shaped_move_interwoven_spirals (t a1 a2 a3 b c ph : ℝ) (nm wf : String)
    (hn : nm = "wiggle" ∨ nm = "both") (hw : wf ∈ recognizedWaveforms) :
    ShapedOk (move_interwoven_spirals t a1 a2 a3 b c nm ph wf) := by
  obtain ⟨v1, hv1⟩ := osc_ok t ⟨a1, 0.125, ph, wf⟩ hw
  obtain ⟨v2, hv2⟩ := osc_ok t ⟨a2, 0.25, ph + 0.25, wf⟩ hw
  obtain ⟨v3, hv3⟩ := osc_ok t ⟨a3, 0.5, ph + 0.5, wf⟩ hw
  obtain ⟨o4, ho4, hs4⟩ := antenna_shaped nm t ⟨b, c, ph, wf⟩ hn hw
  simp only [move_interwoven_spirals, atomic_roll, atomic_pitch, atomic_yaw,
    hv1, hv2, hv3, ho4, Except.map, bind, Except.bind, pure, Except.pure]
  exact ⟨_, rfl, shaped_combine_four _ _ _ _ (by simp [Shaped, vzeros])
    (by simp [Shaped, vzeros]) (by simp [Shaped, vzeros]) hs4⟩

/-- Shape of `move_sharp_side_tilt`. -/
theorem shaped_move_sharp_side_tilt (t a b c ph : ℝ) (nm wf : String)
    (hn : nm = "wiggle" ∨ nm = "both") (hw : wf ∈ recognizedWaveforms) :
    ShapedOk (move_sharp_side_tilt t a b c nm ph wf) := by
  obtain ⟨v1, hv1⟩ := osc_ok t ⟨a, c, ph, wf⟩ hw
  obtain ⟨o2, ho2, hs2⟩ := antenna_shaped nm t ⟨b, c, ph, wf⟩ hn hw
  simp only [move_sharp_side_tilt, atomic_roll, hv1, ho2, Except.map, bind,
    Except.bind, pure, Except.pure]
  exact ⟨_, rfl, shaped_combine_two _ _ (by simp [Shaped, vzeros]) hs2⟩

/-- Shape of `move_side_peekaboo`. -/
theorem shaped_move_side_peekaboo (t a1 a2 a3 b c : ℝ) (nm : String)
    (hn : nm = "wiggle" ∨ nm = "both") :
    ShapedOk (move_side_peekaboo t a1 a2 a3 b nm c) := by
  obtain ⟨o2, ho2, hs2⟩ := antenna_shaped nm t ⟨b, c, 0, "sin"⟩ hn (show "sin" ∈ recognizedWaveforms by decide)
  simp only [move_side_peekaboo, ho2, Except.map, bind, Except.bind, pure,
    Except.pure]
  refine ⟨_, rfl, shaped_combine_two _ _ ?_ hs2⟩
  refine ⟨?_, ?_, by simp [vzeros]⟩ <;> split_ifs <;> simp

/-- Shape of `move_yeah_nod`. -/
theorem shaped_move_yeah_nod (t a b c : ℝ) (nm : String)
    (hn : nm = "wiggle" ∨ nm = "both") :
    ShapedOk (move_yeah_nod t a b c nm) := by
  obtain ⟨o2, ho2, hs2⟩ := antenna_shaped nm t ⟨b, c, 0, "sin"⟩ hn (show "sin" ∈ recognizedWaveforms by decide)
  simp only [move_yeah_nod, ho2, Except.map, bind, Except.bind, pure,
    Except.pure]
  exact ⟨_, rfl, shaped_combine_two _ _ (by simp [Shaped, vzeros]) hs2⟩

/-- Shape of `move_uh_huh_tilt`. -/
theorem shaped_move_uh_huh_tilt (t a b c ph : ℝ) (nm wf : String)
    (hn : nm = "wiggle" ∨ nm = "both") (hw : wf ∈ recognizedWaveforms) :
    ShapedOk (move_uh_huh_tilt t a b c nm ph wf) := by
  obtain ⟨v1, hv1⟩ := osc_ok t ⟨a, c, ph, wf⟩ hw
  obtain ⟨o3, ho3, hs3⟩ := antenna_shaped nm t ⟨b, c, ph, wf⟩ hn hw
  simp only [move_uh_huh_tilt, atomic_roll, atomic_pitch, hv1, ho3, Except.map,
    bind, Except.bind, pure, Except.pure]
  exact ⟨_, rfl, shaped_combine_three _ _ _ (by simp [Shaped, vzeros])
    (by simp [Shaped, vzeros]) hs3⟩

/-- Shape of `move_neck_recoil`. -/
theorem shaped_move_neck_recoil (t a b c : ℝ) (nm : String)
    (hn : nm = "wiggle" ∨ nm = "both") :
    ShapedOk (move_neck_recoil t a b c nm) := by
  obtain ⟨o2, ho2, hs2⟩ := antenna_shaped nm t ⟨b, c, 0, "sin"⟩ hn (show "sin" ∈ recognizedWaveforms by decide)
  simp only [move_neck_recoil, ho2, Except.map, bind, Except.bind, pure,
    Except.pure]
  exact ⟨_, rfl, shaped_combine_two _ _ (by simp [Shaped, vzeros]) hs2⟩

/-- Shape of `move_chin_lead`. -/
theorem shaped_move_chin_lead (t a1 a2 b c ph : ℝ) (nm wf : String)
    (hn : nm = "wiggle" ∨ nm = "both") (hw : wf ∈ recognizedWaveforms) :
    ShapedOk (move_chin_lead t a1 a2 b c nm ph wf) := by
  obtain ⟨v1, hv1⟩ := osc_ok t ⟨a1, c, ph, wf⟩ hw
  obtain ⟨v2, hv2⟩ := osc_ok t ⟨a2, c, ph - 0.25, wf⟩ hw
  obtain ⟨o3, ho3, hs3⟩ := antenna_shaped nm t ⟨b, c, ph, wf⟩ hn hw
  simp only [move_chin_lead, atomic_x_pos, atomic_pitch, hv1, hv2, ho3,
    Except.map, bind, Except.bind, pure, Except.pure]
  exact ⟨_, rfl, shaped_combine_three _ _ _ (by simp [Shaped, vzeros])
    (by simp [Shaped, vzeros]) hs3⟩

/-- Shape of `move_groovy_sway_and_roll`. -/
theorem shaped_move_groovy_sway_and_roll (t a1 a2 b c ph : ℝ) (nm wf : String)
    (hn : nm = "wiggle" ∨ nm = "both") (hw : wf ∈ recognizedWaveforms) :
    ShapedOk (move_groovy_sway_and_roll t a1 a2 b c nm ph wf) := by
  obtain ⟨v1, hv1⟩ := osc_ok t ⟨a1, c, ph, wf⟩ hw
  obtain ⟨v2, hv2⟩ := osc_ok t ⟨a2, c, ph + 0.25, wf⟩ hw
  obtain ⟨o3, ho3, hs3⟩ := antenna_shaped nm t ⟨b, c, ph, wf⟩ hn hw
  simp only [move_groovy_sway_and_roll, atomic_y_pos, atomic_roll, hv1, hv2,
    ho3, Except.map, bind, Except.bind, pure, Except.pure]
  exact ⟨_, rfl, shaped_combine_three _ _ _ (by simp [Shaped, vzeros])
    (by simp [Shaped, vzeros]) hs3⟩

/-- Shape of `move_chicken_peck`. -/
theorem shaped_move_chicken_peck (t a b c : ℝ) (nm : String)
    (hn : nm = "wiggle" ∨ nm = "both") :
    ShapedOk (move_chicken_peck t a b c nm) := by
  obtain ⟨o2, ho2, hs2⟩ := antenna_shaped nm t ⟨b, c, 0, "sin"⟩ hn (show "sin" ∈ recognizedWaveforms by decide)
  simp only [move_chicken_peck, ho2, Except.map, bind, Except.bind, pure,
    Except.pure]
  exact ⟨_, rfl, shaped_combine_two _ _ (by simp [Shaped, vzeros]) hs2⟩

/-- Shape of `move_side_glance_flick`. -/
theorem shaped_move_side_glance_flick (t a b c : ℝ) (nm : String)
    (hn : nm = "wiggle" ∨ nm = "both") :
    ShapedOk (move_side_glance_flick t a b c nm) := by
  obtain ⟨o2, ho2, hs2⟩ := antenna_shaped nm t ⟨b, c, 0, "sin"⟩ hn (show "sin" ∈ recognizedWaveforms by decide)
  simp only [move_side_glance_flick, ho2, Except.map, bind, Except.bind, pure,
    Except.pure]
  exact ⟨_, rfl, shaped_combine_two _ _ (by simp [Shaped, vzeros]) hs2⟩

/-- Shape of `move_polyrhythm_combo`. -/
theorem shaped_move_polyrhythm_combo (t a1 a2 b : ℝ) (nm : String)
    (hn : nm = "wiggle" ∨ nm = "both") :
    ShapedOk (move_polyrhythm_combo t a1 a2 b nm) := by
  obtain ⟨v1, hv1⟩ := osc_ok t ⟨a1, 1 / 3, 0, "sin"⟩ (show "sin" ∈ recognizedWaveforms by decide)
  obtain ⟨v2, hv2⟩ := osc_ok t ⟨a2, 1 / 2, 0, "sin"⟩ (show "sin" ∈ recognizedWaveforms by decide)
  obtain ⟨o3, ho3, hs3⟩ := antenna_shaped nm t ⟨b, 1, 0, "sin"⟩ hn (show "sin" ∈ recognizedWaveforms by decide)
  simp only [move_polyrhythm_combo, atomic_y_pos, atomic_pitch, hv1, hv2, ho3,
    Except.map, bind, Except.bind, pure, Except.pure]
  exact ⟨_, rfl, shaped_combine_three _ _ _ (by simp [Shaped, vzeros])
    (by simp [Shaped, vzeros]) hs3⟩

/-- Shape of `move_grid_snap`. -/
theorem shaped_move_grid_snap (t a b c ph : ℝ) (nm : String)
    (hn : nm = "wiggle" ∨ nm = "both") :
    ShapedOk (move_grid_snap t a b c nm ph) := by
  obtain ⟨o2, ho2, hs2⟩ := antenna_shaped nm t ⟨b, c, ph, "sin"⟩ hn (show "sin" ∈ recognizedWaveforms by decide)
  simp only [move_grid_snap, ho2, Except.map, bind, Except.bind, pure,
    Except.pure]
  exact ⟨_, rfl, shaped_combine_two _ _ (by simp [Shaped, vzeros]) hs2⟩

/-- Shape of `move_pendulum_swing`. -/
theorem shaped_move_pendulum_swing (t a b c ph : ℝ) (nm wf : String)
    (hn : nm = "wiggle" ∨ nm = "both") (hw : wf ∈ recognizedWaveforms) :
    ShapedOk (move_pendulum_swing t a b c nm ph wf) := by
  obtain ⟨v1, hv1⟩ := osc_ok t ⟨a, c, ph, wf⟩ hw
  obtain ⟨o2, ho2, hs2⟩ := antenna_shaped nm t ⟨b, c, ph, wf⟩ hn hw
  simp only [move_pendulum_swing, atomic_roll, hv1, ho2, Except.map, bind,
    Except.bind, pure, Except.pure]
  exact ⟨_, rfl, shaped_combine_two _ _ (by simp [Shaped, vzeros]) hs2⟩

/-- Shape of `move_jackson_square`. -/
theorem shaped_move_jackson_square (t a1 a2 a3 b c z : ℝ) (nm : String)
    (hn : nm = "wiggle" ∨ nm = "both") :
    ShapedOk (move_jackson_square t a1 a2 a3 b c nm z) := by
  obtain ⟨o2, ho2, hs2⟩ := antenna_shaped nm t ⟨b, c, 0, "sin"⟩ hn (show "sin" ∈ recognizedWaveforms by decide)
  simp only [move_jackson_square, ho2, Except.map, bind, Except.bind, pure,
    Except.pure]
  refine ⟨_, rfl, shaped_combine_two _ _ ⟨?_, by simp, by simp [vzeros]⟩ hs2⟩
  have hp : ∀ x ∈ ([[0, 0, z], [0, a1, a2 + z], [0, -a1, a2 + z],
      [0, -a1, -a2 + z], [0, a1, -a2 + z]] : List (List ℝ)), x.length = 3 := by
    intro x hx
    simp only [List.mem_cons, List.not_mem_nil, or_false] at hx
    rcases hx with rfl | rfl | rfl | rfl | rfl <;> simp
  rw [vadd_length, vsmul_length, vsub_length, getD_length_three _ hp,
    getD_length_three _ hp]
  simp

/-- C9 (amended): every registered move, with its default parameters merged
with overrides for the same keys that keep the antenna style and waveform
recognized and any subcycle rate positive, evaluates at every beat time to
offsets of shapes (3,), (3,), (2,); `combine_offsets` preserves these shapes
and maps the empty list to the zero offsets. -/
theorem registered_moves_shapes :
    (∀ name fn, (name, fn) ∈ AVAILABLE_MOVES_fns →
      ∀ (t : ℝ) (ov : ParamDict),
      OverridesValid ((assocLookup AVAILABLE_MOVES_params name).getD []) ov →
      AntennaOk (dictUpdate ((assocLookup AVAILABLE_MOVES_params name).getD []) ov) →
      WaveformOk (dictUpdate ((assocLookup AVAILABLE_MOVES_params name).getD []) ov) →
      SubsPos (dictUpdate ((assocLookup AVAILABLE_MOVES_params name).getD []) ov) →
      ShapedOk (fn t (dictUpdate ((assocLookup AVAILABLE_MOVES_params name).getD []) ov))) ∧
    (∀ l : List MoveOffsets, (∀ o ∈ l, Shaped o) → Shaped (combine_offsets l)) ∧
    combine_offsets [] = ⟨vzeros 3, vzeros 3, vzeros 2⟩ := by
  refine ⟨?_, shaped_combine, rfl⟩
  intro name fn hmem t ov hov hA hW _hS
  simp only [AVAILABLE_MOVES_fns, List.mem_cons, List.not_mem_nil, or_false,
    Prod.mk.injEq] at hmem
  rcases hmem with ⟨rfl, rfl⟩ | hmem
  · obtain ⟨s, hs⟩ := dictUpdate_str_preserved _ ov "antenna_move_name" "wiggle" hov rfl
    have hwn := dictUpdate_none_preserved _ ov "waveform" hov rfl
    simp only [call_simple_nod]
    rw [getStrD_eq_of_str _ _ _ _ hs, getStrD_eq_of_none _ _ _ hwn]
    exact shaped_move_simple_nod _ _ _ _ _ _ _ (hA s hs) (by decide)
  rcases hmem with ⟨rfl, rfl⟩ | hmem
  · obtain ⟨s, hs⟩ := dictUpdate_str_preserved _ ov "antenna_move_name" "wiggle" hov rfl
    have hwn := dictUpdate_none_preserved _ ov "waveform" hov rfl
    simp only [call_head_tilt_roll]
    rw [getStrD_eq_of_str _ _ _ _ hs, getStrD_eq_of_none _ _ _ hwn]
    exact shaped_move_head_tilt_roll _ _ _ _ _ _ _ (hA s hs) (by decide)
  rcases hmem with ⟨rfl, rfl⟩ | hmem
  · obtain ⟨s, hs⟩ := dictUpdate_str_preserved _ ov "antenna_move_name" "wiggle" hov rfl
    have hwn := dictUpdate_none_preserved _ ov "waveform" hov rfl
    simp only [call_side_to_side_sway]
    rw [getStrD_eq_of_str _ _ _ _ hs, getStrD_eq_of_none _ _ _ hwn]
    exact shaped_move_side_to_side_sway _ _ _ _ _ _ _ (hA s hs) (by decide)
  rcases hmem with ⟨rfl, rfl⟩ | hmem
  · obtain ⟨s, hs⟩ := dictUpdate_str_preserved _ ov "antenna_move_name" "wiggle" hov rfl
    have hwn := dictUpdate_none_preserved _ ov "waveform" hov rfl
    simp only [call_dizzy_spin]
    rw [getStrD_eq_of_str _ _ _ _ hs, getStrD_eq_of_none _ _ _ hwn]
    exact shaped_move_dizzy_spin _ _ _ _ _ _ _ _ (hA s hs) (by decide)
  rcases hmem with ⟨rfl, rfl⟩ | hmem
  · obtain ⟨s, hs⟩ := dictUpdate_str_preserved _ ov "antenna_move_name" "both" hov rfl
    have hwn := dictUpdate_none_preserved _ ov "waveform" hov rfl
    simp only [call_stumble_and_recover]
    rw [getStrD_eq_of_str _ _ _ _ hs, getStrD_eq_of_none _ _ _ hwn]
    exact shaped_move_stumble_and_recover _ _ _ _ _ _ _ _ _ (hA s hs) (by decide)
  rcases hmem with ⟨rfl, rfl⟩ | hmem
  · obtain ⟨s, hs⟩ := dictUpdate_str_preserved _ ov "antenna_move_name" "both" hov rfl
    obtain ⟨s2, hs2⟩ := dictUpdate_str_preserved _ ov "waveform" "sin" hov rfl
    simp only [call_headbanger_combo]
    rw [getStrD_eq_of_str _ _ _ _ hs, getStrD_eq_of_str _ _ _ _ hs2]
    exact shaped_move_headbanger_combo _ _ _ _ _ _ _ _ (hA s hs) (hW s2 hs2)
  rcases hmem with ⟨rfl, rfl⟩ | hmem
  · obtain ⟨s, hs⟩ := dictUpdate_str_preserved _ ov "antenna_move_name" "wiggle" hov rfl
    have hwn := dictUpdate_none_preserved _ ov "waveform" hov rfl
    simp only [call_interwoven_spirals]
    rw [getStrD_eq_of_str _ _ _ _ hs, getStrD_eq_of_none _ _ _ hwn]
    exact shaped_move_interwoven_spirals _ _ _ _ _ _ _ _ _ (hA s hs) (by decide)
  rcases hmem with ⟨rfl, rfl⟩ | hmem
  · obtain ⟨s, hs⟩ := dictUpdate_str_preserved _ ov "antenna_move_name" "wiggle" hov rfl
    obtain ⟨s2, hs2⟩ := dictUpdate_str_preserved _ ov "waveform" "triangle" hov rfl
    simp only [call_sharp_side_tilt]
    rw [getStrD_eq_of_str _ _ _ _ hs, getStrD_eq_of_str _ _ _ _ hs2]
    exact shaped_move_sharp_side_tilt _ _ _ _ _ _ _ (hA s hs) (hW s2 hs2)
  rcases hmem with ⟨rfl, rfl⟩ | hmem
  · obtain ⟨s, hs⟩ := dictUpdate_str_preserved _ ov "antenna_move_name" "both" hov rfl
    simp only [call_side_peekaboo]
    rw [getStrD_eq_of_str _ _ _ _ hs]
    exact shaped_move_side_peekaboo _ _ _ _ _ _ _ (hA s hs)
  rcases hmem with ⟨rfl, rfl⟩ | hmem
  · obtain ⟨s, hs⟩ := dictUpdate_str_preserved _ ov "antenna_move_name" "both" hov rfl
    simp only [call_yeah_nod]
    rw [getStrD_eq_of_str _ _ _ _ hs]
    exact shaped_move_yeah_nod _ _ _ _ _ (hA s hs)
  rcases hmem with ⟨rfl, rfl⟩ | hmem
  · obtain ⟨s, hs⟩ := dictUpdate_str_preserved _ ov "antenna_move_name" "wiggle" hov rfl
    have hwn := dictUpdate_none_preserved _ ov "waveform" hov rfl
    simp only [call_uh_huh_tilt]
    rw [getStrD_eq_of_str _ _ _ _ hs, getStrD_eq_of_none _ _ _ hwn]
    exact shaped_move_uh_huh_tilt _ _ _ _ _ _ _ (hA s hs) (by decide)
  rcases hmem with ⟨rfl, rfl⟩ | hmem
  · obtain ⟨s, hs⟩ := dictUpdate_str_preserved _ ov "antenna_move_name" "wiggle" hov rfl
    simp only [call_neck_recoil]
    rw [getStrD_eq_of_str _ _ _ _ hs]
    exact shaped_move_neck_recoil _ _ _ _ _ (hA s hs)
  rcases hmem with ⟨rfl, rfl⟩ | hmem
  · obtain ⟨s, hs⟩ := dictUpdate_str_preserved _ ov "antenna_move_name" "wiggle" hov rfl
    have hwn := dictUpdate_none_preserved _ ov "waveform" hov rfl
    simp only [call_chin_lead]
    rw [getStrD_eq_of_str _ _ _ _ hs, getStrD_eq_of_none _ _ _ hwn]
    exact shaped_move_chin_lead _ _ _ _ _ _ _ _ (hA s hs) (by decide)
  rcases hmem with ⟨rfl, rfl⟩ | hmem
  · obtain ⟨s, hs⟩ := dictUpdate_str_preserved _ ov "antenna_move_name" "wiggle" hov rfl
    have hwn := dictUpdate_none_preserved _ ov "waveform" hov rfl
    simp only [call_groovy_sway_and_roll]
    rw [getStrD_eq_of_str _ _ _ _ hs, getStrD_eq_of_none _ _ _ hwn]
    exact shaped_move_groovy_sway_and_roll _ _ _ _ _ _ _ _ (hA s hs) (by decide)
  rcases hmem with ⟨rfl, rfl⟩ | hmem
  · obtain ⟨s, hs⟩ := dictUpdate_str_preserved _ ov "antenna_move_name" "both" hov rfl
    simp only [call_chicken_peck]
    rw [getStrD_eq_of_str _ _ _ _ hs]
    exact shaped_move_chicken_peck _ _ _ _ _ (hA s hs)
  rcases hmem with ⟨rfl, rfl⟩ | hmem
  · obtain ⟨s, hs⟩ := dictUpdate_str_preserved _ ov "antenna_move_name" "wiggle" hov rfl
    simp only [call_side_glance_flick]
    rw [getStrD_eq_of_str _ _ _ _ hs]
    exact shaped_move_side_glance_flick _ _ _ _ _ (hA s hs)
  rcases hmem with ⟨rfl, rfl⟩ | hmem
  · obtain ⟨s, hs⟩ := dictUpdate_str_preserved _ ov "antenna_move_name" "wiggle" hov rfl
    simp only [call_polyrhythm_combo]
    rw [getStrD_eq_of_str _ _ _ _ hs]
    exact shaped_move_polyrhythm_combo _ _ _ _ _ (hA s hs)
  rcases hmem with ⟨rfl, rfl⟩ | hmem
  · obtain ⟨s, hs⟩ := dictUpdate_str_preserved _ ov "antenna_move_name" "both" hov rfl
    simp only [call_grid_snap]
    rw [getStrD_eq_of_str _ _ _ _ hs]
    exact shaped_move_grid_snap _ _ _ _ _ _ (hA s hs)
  rcases hmem with ⟨rfl, rfl⟩ | hmem
  · obtain ⟨s, hs⟩ := dictUpdate_str_preserved _ ov "antenna_move_name" "wiggle" hov rfl
    have hwn := dictUpdate_none_preserved _ ov "waveform" hov rfl
    simp only [call_pendulum_swing]
    rw [getStrD_eq_of_str _ _ _ _ hs, getStrD_eq_of_none _ _ _ hwn]
    exact shaped_move_pendulum_swing _ _ _ _ _ _ _ (hA s hs) (by decide)
  obtain ⟨rfl, rfl⟩ := hmem
  obtain ⟨s, hs⟩ := dictUpdate_str_preserved _ ov "antenna_move_name" "wiggle" hov rfl
  simp only [call_jackson_square]
  rw [getStrD_eq_of_str _ _ _ _ hs]
  exact shaped_move_jackson_square _ _ _ _ _ _ _ _ (hA s hs)

/-- Witness for the amended C9 theorem at `simple_nod`, beat time 0, no
overrides. -/
theorem registered_moves_shapes_witness :
    (("simple_nod", call_simple_nod) ∈ AVAILABLE_MOVES_fns ∧
     OverridesValid ((assocLookup AVAILABLE_MOVES_params "simple_nod").getD []) [] ∧
     AntennaOk (dictUpdate ((assocLookup AVAILABLE_MOVES_params "simple_nod").getD []) []) ∧
     WaveformOk (dictUpdate ((assocLookup AVAILABLE_MOVES_params "simple_nod").getD []) []) ∧
     SubsPos (dictUpdate ((assocLookup AVAILABLE_MOVES_params "simple_nod").getD []) [])) ∧
    ShapedOk (call_simple_nod 0
      (dictUpdate ((assocLookup AVAILABLE_MOVES_params "simple_nod").getD []) [])) := by
  have h1 : ("simple_nod", call_simple_nod) ∈ AVAILABLE_MOVES_fns :=
    List.mem_cons_self _ _
  have h2 : OverridesValid ((assocLookup AVAILABLE_MOVES_params "simple_nod").getD []) [] :=
    ⟨List.nodup_nil, by intro kv hkv; simp at hkv⟩
  have h3 : AntennaOk (dictUpdate ((assocLookup AVAILABLE_MOVES_params "simple_nod").getD []) []) := by
    intro s h
    have h2 := Option.some.inj
      (show some (PValue.str "wiggle") = some (PValue.str s) from h)
    cases h2
    left
    rfl
  have h4 : WaveformOk (dictUpdate ((assocLookup AVAILABLE_MOVES_params "simple_nod").getD []) []) := by
    intro s h
    exact Option.noConfusion
      (show (none : Option PValue) = some (PValue.str s) from h)
  have h5 : SubsPos (dictUpdate ((assocLookup AVAILABLE_MOVES_params "simple_nod").getD []) []) := by
    intro v h
    have h2 := Option.some.inj (show some (PValue.num 1) = some v from h)
    subst h2
    simp [PValue.toReal]
  exact ⟨⟨h1, h2, h3, h4, h5⟩,
    registered_moves_shapes.1 "simple_nod" call_simple_nod h1 0 [] h2 h3 h4 h5⟩

/-- C9 counterexample: overriding the existing key `antenna_move_name` of
`simple_nod` with an unregistered style makes evaluation raise (a KeyError in
the antenna dispatch), so no `MoveOffsets` of any shape is returned. -/
theorem registered_moves_shapes_cex :
    ("simple_nod", call_simple_nod) ∈ AVAILABLE_MOVES_fns ∧
    call_simple_nod 0
      (dictUpdate ((assocLookup AVAILABLE_MOVES_params "simple_nod").getD [])
        [("antenna_move_name", PValue.str "bogus")]) =
      .error "KeyError: bogus" :=
  ⟨List.mem_cons_self _ _, rfl⟩

/-- The phase advances by one full turn over one subcycle period. -/
theorem oscPhase_add_period (p : OscillationParams)
    (hf : p.subcycles_per_beat ≠ 0) (t : ℝ) :
    oscPhase (t + 1 / p.subcycles_per_beat) p = oscPhase t p + 2 * Real.pi := by
  unfold oscPhase
  field_simp
  ring

/-- C5: for a positive subcycle rate f and any of the five recognized
waveforms, the oscillation output at t + 1/f equals the output at t (the
motion is periodic with period 1/f beats). -/
theorem oscillation_motion_periodic (p : OscillationParams) (t : ℝ)
    (hf : 0 < p.subcycles_per_beat) (hw : p.waveform ∈ recognizedWaveforms) :
    oscillation_motion (t + 1 / p.subcycles_per_beat) p =
      oscillation_motion t p := by
  have hph := oscPhase_add_period p (ne_of_gt hf) t
  simp only [recognizedWaveforms, List.mem_cons, List.not_mem_nil, or_false] at hw
  unfold oscillation_motion
  rcases hw with h | h | h | h | h <;> rw [h]
  · show Except.ok (p.amplitude * Real.sin (oscPhase (t + 1 / p.subcycles_per_beat) p)) =
      Except.ok (p.amplitude * Real.sin (oscPhase t p))
    rw [hph, Real.sin_add_two_pi]
  · show Except.ok (p.amplitude * Real.cos (oscPhase (t + 1 / p.subcycles_per_beat) p)) =
      Except.ok (p.amplitude * Real.cos (oscPhase t p))
    rw [hph, Real.cos_add_two_pi]
  · show Except.ok (p.amplitude * Real.sign (Real.sin (oscPhase (t + 1 / p.subcycles_per_beat) p))) =
      Except.ok (p.amplitude * Real.sign (Real.sin (oscPhase t p)))
    rw [hph, Real.sin_add_two_pi]
  · show Except.ok (p.amplitude * (2 / Real.pi) *
        Real.arcsin (Real.sin (oscPhase (t + 1 / p.subcycles_per_beat) p))) =
      Except.ok (p.amplitude * (2 / Real.pi) * Real.arcsin (Real.sin (oscPhase t p)))
    rw [hph, Real.sin_add_two_pi]
  · show Except.ok (p.amplitude *
        (2 * Int.fract (oscPhase (t + 1 / p.subcycles_per_beat) p / (2 * Real.pi)) - 1)) =
      Except.ok (p.amplitude * (2 * Int.fract (oscPhase t p / (2 * Real.pi)) - 1))
    have h2 : (oscPhase t p + 2 * Real.pi) / (2 * Real.pi) =
        oscPhase t p / (2 * Real.pi) + 1 := by
      field_simp
    rw [hph, h2, Int.fract_add_one]

/-- Witness for C5 at amplitude 1, one subcycle per beat, sine waveform,
beat time 0. -/
theorem oscillation_motion_periodic_witness :
    (0 : ℝ) < 1 ∧ "sin" ∈ recognizedWaveforms ∧
    oscillation_motion ((0 : ℝ) + 1 / 1) ⟨1, 1, 0, "sin"⟩ =
      oscillation_motion 0 ⟨1, 1, 0, "sin"⟩ :=
  ⟨one_pos, by decide, oscillation_motion_periodic ⟨1, 1, 0, "sin"⟩ 0 one_pos (by decide)⟩

/-- Value of `transient_motion` inside the window. -/
theorem transient_motion_of_window {α : Type} [LinearOrderedField α]
    [FloorRing α] (t : α) (p : TransientParams α)
    (h1 : transientStart t p ≤ t)
    (h2 : t < transientStart t p + p.duration_in_beats) :
    transient_motion t p =
      p.amplitude * smoothstepEase ((t - transientStart t p) / p.duration_in_beats) := by
  show (if transientStart t p ≤ t ∧ t < transientStart t p + p.duration_in_beats
    then p.amplitude * smoothstepEase ((t - transientStart t p) / p.duration_in_beats)
    else 0) = _
  rw [if_pos ⟨h1, h2⟩]

/-- Value of `transient_motion` outside the window. -/
theorem transient_motion_of_notWindow {α : Type} [LinearOrderedField α]
    [FloorRing α] (t : α) (p : TransientParams α)
    (h : ¬(transientStart t p ≤ t ∧
        t < transientStart t p + p.duration_in_beats)) :
    transient_motion t p = 0 := by
  show (if transientStart t p ≤ t ∧ t < transientStart t p + p.duration_in_beats
    then p.amplitude * smoothstepEase ((t - transientStart t p) / p.duration_in_beats)
    else 0) = _
  rw [if_neg h]

/-- The repeating window start shifts by exactly one repeat interval. -/
theorem transientStart_add {α : Type} [LinearOrderedField α] [FloorRing α]
    (t : α) (p : TransientParams α) (hR : 0 < p.repeat_every) :
    transientStart (t + p.repeat_every) p = transientStart t p + p.repeat_every := by
  unfold transientStart
  rw [if_pos hR, if_pos hR]
  have h1 : (t + p.repeat_every - p.delay_beats) / p.repeat_every =
      (t - p.delay_beats) / p.repeat_every + 1 := by
    field_simp
    ring
  rw [h1, Int.floor_add_one]
  push_cast
  ring

/-- C6: for a positive duration, the transient is exactly 0 before the window
start and from its end on, equals amplitude times the smoothstep of the
normalized progress inside the window (with easing value 1, hence amplitude,
at the window end), the start is the delay for a one-shot and the largest
delay plus an integer multiple of the repeat interval not exceeding t for a
repeating one, and a positive repeat interval R makes the output R-periodic. -/
theorem transient_motion_spec (p : TransientParams ℚ)
    (hdur : 0 < p.duration_in_beats) : TransientSpecProps p := by
  refine ⟨?_, ?_, ?_, ?_, ?_, ?_, ?_⟩
  · intro t h
    exact transient_motion_of_notWindow t p (fun hc => absurd hc.1 (not_le.mpr h))
  · intro t h
    exact transient_motion_of_notWindow t p (fun hc => absurd hc.2 (not_lt.mpr h))
  · intro t h1 h2
    exact transient_motion_of_window t p h1 h2
  · rw [show smoothstepEase (1 : ℚ) = 1 by norm_num [smoothstepEase], mul_one]
  · intro hR t
    unfold transientStart
    rw [if_neg (not_lt.mpr hR)]
  · intro hR t
    refine ⟨?_, ⟨⌊(t - p.delay_beats) / p.repeat_every⌋, ?_⟩, ?_⟩
    · unfold transientStart
      rw [if_pos hR]
      have h1 : ((⌊(t - p.delay_beats) / p.repeat_every⌋ : ℚ)) ≤
          (t - p.delay_beats) / p.repeat_every := Int.floor_le _
      have h2 := mul_le_mul_of_nonneg_right h1 (le_of_lt hR)
      rw [div_mul_cancel₀ _ (ne_of_gt hR)] at h2
      linarith
    · unfold transientStart
      rw [if_pos hR]
      ring
    · intro k hk
      have hk2 : (k : ℚ) * p.repeat_every ≤ t - p.delay_beats := by linarith
      have hk3 : (k : ℚ) ≤ (t - p.delay_beats) / p.repeat_every :=
        (le_div_iff₀ hR).mpr hk2
      have hk4 : k ≤ ⌊(t - p.delay_beats) / p.repeat_every⌋ := Int.le_floor.mpr hk3
      have hk5 : (k : ℚ) ≤ ((⌊(t - p.delay_beats) / p.repeat_every⌋ : ℤ) : ℚ) := by
        exact_mod_cast hk4
      have hk6 := mul_le_mul_of_nonneg_right hk5 (le_of_lt hR)
      unfold transientStart
      rw [if_pos hR]
      linarith
  · intro hR t
    have hst := transientStart_add t p hR
    by_cases hc : transientStart t p ≤ t ∧
        t < transientStart t p + p.duration_in_beats
    · rw [transient_motion_of_window _ _ (by rw [hst]; linarith [hc.1])
        (by rw [hst]; linarith [hc.2]),
        transient_motion_of_window _ _ hc.1 hc.2, hst,
        show t + p.repeat_every - (transientStart t p + p.repeat_every) =
          t - transientStart t p from by ring]
    · have hnc2 : ¬(transientStart (t + p.repeat_every) p ≤ t + p.repeat_every ∧
          t + p.repeat_every <
            transientStart (t + p.repeat_every) p + p.duration_in_beats) := by
        rw [hst]
        intro hc2
        exact hc ⟨by linarith [hc2.1], by linarith [hc2.2]⟩
      rw [transient_motion_of_notWindow _ _ hnc2,
        transient_motion_of_notWindow _ _ hc]

/-- Witness for C6 at amplitude 5, duration 2 beats, no delay, repeating
every 4 beats. -/
theorem transient_motion_spec_witness :
    (0 : ℚ) < (2 : ℚ) ∧ TransientSpecProps ⟨5, 2, 0, 4⟩ :=
  ⟨by norm_num, transient_motion_spec ⟨5, 2, 0, 4⟩ (by norm_num)⟩

/-- C1 counterexample: for the one-step choreography `cexChoreoJson` (tempo
60, simple_nod for 2 cycles) the loaded duration is (60/114)*4 = 40/19
seconds, while the claimed formula (cycle count times move duration at the
file tempo) gives 8 seconds. -/
theorem choreography_duration_cex :
    Choreography.ofJson AVAILABLE_MOVES_params cexChoreoJson =
      some (cexChoreo, AVAILABLE_MOVES_params) ∧
    Choreography.duration cexChoreo = 40 / 19 ∧
    specClaimedDuration cexChoreo = 8 ∧
    Choreography.duration cexChoreo ≠ specClaimedDuration cexChoreo := by
  have h1 : Choreography.duration cexChoreo = 40 / 19 := by
    norm_num [Choreography.duration, DanceMove.duration, cexChoreo,
      danceMoveDefaultBpm, getNumQ, dictLookup, assocLookup,
      AVAILABLE_MOVES_metadata]
  have h2 : specClaimedDuration cexChoreo = 8 := by
    norm_num [specClaimedDuration, cexChoreo, getNumQ, dictLookup, assocLookup,
      AVAILABLE_MOVES_metadata]
  refine ⟨rfl, h1, h2, ?_⟩
  rw [h1, h2]
  norm_num

/-- C1 (amended): the duration of a loaded choreography is the sum over its
steps of (60 / default_bpm) * defaultDurationBeats with the fixed class
default of 114 bpm, ignoring both the per-step cycle counts and the
choreography tempo. -/
theorem choreography_duration_amended (ps ps' : ParamsTable) (cj : ChoreoJson)
    (c : Choreography) (h : Choreography.ofJson ps cj = some (c, ps')) :
    Choreography.duration c =
      (c.moves.map (fun m =>
        (60 / danceMoveDefaultBpm) *
          getNumQ m.move_metadata "default_duration_beats" 1)).sum ∧
    (∀ (b : ℚ) (cyc : List ℚ),
      Choreography.duration ⟨b, c.moves, cyc⟩ = Choreography.duration c) := by
  constructor
  · have hfun : ∀ m : DanceMove, DanceMove.duration m =
        (60 / danceMoveDefaultBpm) *
          getNumQ m.move_metadata "default_duration_beats" 1 := by
      intro m
      show (1 / (danceMoveDefaultBpm / 60)) *
        getNumQ m.move_metadata "default_duration_beats" 1 = _
      norm_num [danceMoveDefaultBpm]
    unfold Choreography.duration
    rw [show DanceMove.duration = (fun m =>
      (60 / danceMoveDefaultBpm) *
        getNumQ m.move_metadata "default_duration_beats" 1) from funext hfun]
  · intro b cyc
    rfl

/-- Witness for the amended C1 theorem at the concrete choreography
`cexChoreoJson`. -/
theorem choreography_duration_amended_witness :
    Choreography.ofJson AVAILABLE_MOVES_params cexChoreoJson =
      some (cexChoreo, AVAILABLE_MOVES_params) ∧
    (Choreography.duration cexChoreo =
      (cexChoreo.moves.map (fun m =>
        (60 / danceMoveDefaultBpm) *
          getNumQ m.move_metadata "default_duration_beats" 1)).sum ∧
     (∀ (b : ℚ) (cyc : List ℚ),
       Choreography.duration ⟨b, cexChoreo.moves, cyc⟩ =
         Choreography.duration cexChoreo)) :=
  ⟨rfl,
   choreography_duration_amended AVAILABLE_MOVES_params AVAILABLE_MOVES_params
     cexChoreoJson cexChoreo rfl⟩

/-- C2: constructing `DanceMove("simple_nod", amplitude_rad=999)` succeeds
and afterwards the registry entry for `simple_nod` holds the overridden
value, so the parameter table differs from its state before the
construction (the constructor mutates the aliased registry dict in place). -/
theorem danceMoveInit_mutates_registry :
    (danceMoveInit AVAILABLE_MOVES_params "simple_nod"
        [("amplitude_rad", PValue.num 999)]).isSome = true ∧
    ((danceMoveInit AVAILABLE_MOVES_params "simple_nod"
        [("amplitude_rad", PValue.num 999)]).map
      (fun r => assocLookup r.2 "simple_nod")) =
      some (some [("amplitude_rad", PValue.num 999),
        ("subcycles_per_beat", PValue.num 1),
        ("antenna_move_name", PValue.str "wiggle"),
        ("antenna_amplitude_rad", PValue.degrees 45)]) ∧
    assocLookup AVAILABLE_MOVES_params "simple_nod" =
      some [("amplitude_rad", PValue.degrees 20),
        ("subcycles_per_beat", PValue.num 1),
        ("antenna_move_name", PValue.str "wiggle"),
        ("antenna_amplitude_rad", PValue.degrees 45)] ∧
    ((danceMoveInit AVAILABLE_MOVES_params "simple_nod"
        [("amplitude_rad", PValue.num 999)]).map Prod.snd) ≠
      some AVAILABLE_MOVES_params := by
  refine ⟨rfl, rfl, rfl, ?_⟩
  intro h
  have h2 := congrArg (fun o => o.bind (fun tb =>
    dictLookup ((assocLookup tb "simple_nod").getD []) "amplitude_rad")) h
  have h3 : some (PValue.num 999) = some (PValue.degrees 20) := h2
  have h4 := Option.some.inj h3
  cases h4

/-- C3 counterexample: constructing `simple_nod` with an override key absent
from its default parameters raises no configuration error at construction
time; the unknown key is silently merged into the parameter dict. -/
theorem danceMoveInit_unknown_key_cex :
    (danceMoveInit AVAILABLE_MOVES_params "simple_nod"
        [("totally_unknown_key", PValue.num 1)]).isSome = true ∧
    ((danceMoveInit AVAILABLE_MOVES_params "simple_nod"
        [("totally_unknown_key", PValue.num 1)]).map
      (fun r => dictLookup r.1.move_params "totally_unknown_key")) =
      some (some (PValue.num 1)) :=
  ⟨rfl, rfl⟩

/-- C3 (amended): for a registered move, construction always succeeds and the
overrides (known or unknown keys alike) are merged onto the per-move defaults
by dict update: overridden keys take the override value and the others keep
their default, with no validation of the keys. -/
theorem danceMoveInit_merges_overrides (ps : ParamsTable) (move_name : String)
    (d meta : ParamDict) (ov : ParamDict)
    (hp : assocLookup ps move_name = some d)
    (hm : assocLookup AVAILABLE_MOVES_metadata move_name = some meta)
    (hnd : (ov.map Prod.fst).Nodup) :
    danceMoveInit ps move_name ov =
      some (⟨move_name, dictUpdate d ov, meta⟩,
        assocSet ps move_name (dictUpdate d ov)) ∧
    (∀ k v, dictLookup ov k = some v → dictLookup (dictUpdate d ov) k = some v) ∧
    (∀ k, dictLookup ov k = none →
      dictLookup (dictUpdate d ov) k = dictLookup d k) := by
  refine ⟨?_, ?_, ?_⟩
  · unfold danceMoveInit
    rw [hp, hm]
  · intro k v h
    exact dictLookup_dictUpdate_mem _ _ _ _ hnd h
  · intro k h
    exact dictLookup_dictUpdate_notMem _ _ _ h

/-- Witness for the amended C3 theorem: `simple_nod` with one known and one
unknown override key. -/
theorem danceMoveInit_merges_overrides_witness :
    (assocLookup AVAILABLE_MOVES_params "simple_nod" =
      some ((assocLookup AVAILABLE_MOVES_params "simple_nod").getD []) ∧
     assocLookup AVAILABLE_MOVES_metadata "simple_nod" =
      some ((assocLookup AVAILABLE_MOVES_metadata "simple_nod").getD []) ∧
     ((([("amplitude_rad", PValue.num 999), ("extra_key", PValue.num 7)] :
        ParamDict).map Prod.fst).Nodup)) ∧
    (danceMoveInit AVAILABLE_MOVES_params "simple_nod"
        [("amplitude_rad", PValue.num 999), ("extra_key", PValue.num 7)] =
      some (⟨"simple_nod",
        dictUpdate ((assocLookup AVAILABLE_MOVES_params "simple_nod").getD [])
          [("amplitude_rad", PValue.num 999), ("extra_key", PValue.num 7)],
        (assocLookup AVAILABLE_MOVES_metadata "simple_nod").getD []⟩,
        assocSet AVAILABLE_MOVES_params "simple_nod"
          (dictUpdate ((assocLookup AVAILABLE_MOVES_params "simple_nod").getD [])
            [("amplitude_rad", PValue.num 999), ("extra_key", PValue.num 7)])) ∧
     (∀ k v, dictLookup [("amplitude_rad", PValue.num 999),
        ("extra_key", PValue.num 7)] k = some v →
       dictLookup (dictUpdate
         ((assocLookup AVAILABLE_MOVES_params "simple_nod").getD [])
         [("amplitude_rad", PValue.num 999), ("extra_key", PValue.num 7)]) k =
         some v) ∧
     (∀ k, dictLookup [("amplitude_rad", PValue.num 999),
        ("extra_key", PValue.num 7)] k = none →
       dictLookup (dictUpdate
         ((assocLookup AVAILABLE_MOVES_params "simple_nod").getD [])
         [("amplitude_rad", PValue.num 999), ("extra_key", PValue.num 7)]) k =
         dictLookup ((assocLookup AVAILABLE_MOVES_params "simple_nod").getD []) k)) :=
  ⟨⟨rfl, rfl, by decide⟩,
   danceMoveInit_merges_overrides AVAILABLE_MOVES_params "simple_nod" _ _ _
     rfl rfl (by decide)⟩

/-- C4 counterexample: loading a choreography whose step carries the
unsupported waveform `blah` succeeds (no load-time error), while the
oscillation evaluation with that waveform raises the configuration error - so
the unsupported waveform is first detected at evaluation (playback) time, not
at load time. -/
theorem unsupported_waveform_lazy_cex :
    load_choreography cexWaveChoreoData =
      some ([[("move", PValue.str "simple_nod"), ("cycles", PValue.num 1),
        ("waveform", PValue.str "blah")]], none) ∧
    oscillation_motion 0 ⟨1, 1, 0, "blah"⟩ =
      .error "Unsupported waveform type: blah" :=
  ⟨rfl, rfl⟩

/-- C4 (amended): loading validates only the file structure and the
registered move names - any sequence whose steps name registered moves loads
successfully whatever waveform entries it carries - while an unrecognized
waveform makes the oscillation evaluation itself fail with the
invalid-configuration error, i.e. the error is detected at evaluation time
during playback. -/
theorem waveform_error_at_evaluation (seq : List ParamDict) (bpm : Option ℚ)
    (hreg : ∀ st ∈ seq, ∃ s, stepMoveName st = some s ∧ isRegistered s = true) :
    load_choreography ⟨bpm, some seq⟩ = some (seq, bpm) ∧
    (∀ (t : ℝ) (p : OscillationParams), p.waveform ∉ recognizedWaveforms →
      oscillation_motion t p =
        .error ("Unsupported waveform type: " ++ p.waveform)) := by
  constructor
  · show (if (seq.all fun st =>
        match stepMoveName st with
        | some s => isRegistered s
        | none => false) = true then
      some (seq, bpm) else none) = some (seq, bpm)
    rw [if_pos]
    apply List.all_eq_true.mpr
    intro st hst
    obtain ⟨s, hs, hr⟩ := hreg st hst
    simp [hs, hr]
  · intro t p hw
    simp only [recognizedWaveforms, List.mem_cons, List.not_mem_nil, or_false] at hw
    push_neg at hw
    obtain ⟨h1, h2, h3, h4, h5⟩ := hw
    unfold oscillation_motion
    rw [if_neg h1, if_neg h2, if_neg h3, if_neg h4, if_neg h5]

/-- Witness for the amended C4 theorem at a one-step sequence with the
unsupported waveform `blah`. -/
theorem waveform_error_at_evaluation_witness :
    (∀ st ∈ ([[("move", PValue.str "simple_nod"), ("cycles", PValue.num 1),
        ("waveform", PValue.str "blah")]] : List ParamDict),
      ∃ s, stepMoveName st = some s ∧ isRegistered s = true) ∧
    (load_choreography ⟨none, some [[("move", PValue.str "simple_nod"),
        ("cycles", PValue.num 1), ("waveform", PValue.str "blah")]]⟩ =
      some ([[("move", PValue.str "simple_nod"), ("cycles", PValue.num 1),
        ("waveform", PValue.str "blah")]], none) ∧
     (∀ (t : ℝ) (p : OscillationParams), p.waveform ∉ recognizedWaveforms →
       oscillation_motion t p =
         .error ("Unsupported waveform type: " ++ p.waveform))) := by
  have hreg : ∀ st ∈ ([[("move", PValue.str "simple_nod"),
      ("cycles", PValue.num 1), ("waveform", PValue.str "blah")]] :
      List ParamDict),
      ∃ s, stepMoveName st = some s ∧ isRegistered s = true := by
    intro st hst
    simp only [List.mem_cons, List.not_mem_nil, or_false] at hst
    subst hst
    exact ⟨"simple_nod", rfl, rfl⟩
  exact ⟨hreg, waveform_error_at_evaluation _ none hreg⟩

/-- C7: in choreography mode, a current step playing `head_tilt_roll` (whose
registry subcycle rate is 0.5) for 4 cycles has target beats 4 / 0.5 = 8, and
the sequencer moves to the next step (index incremented modulo the sequence
length, counter reset to 0) exactly when the accumulated step counter reaches
8 beats, and keeps the step with the accumulated counter otherwise. -/
theorem choreo_step_transition (seq : List ParamDict) (st : DemoState)
    (delta : ℚ)
    (hstep : seq.getD st.choreography_step_idx [] =
      [("move", PValue.str "head_tilt_roll"), ("cycles", PValue.num 4)]) :
    ((8 : ℚ) ≤ st.step_beat_counter + delta →
      choreoStepUpdate seq st delta =
        .ok ("head_tilt_roll", (st.choreography_step_idx + 1) % seq.length, 0)) ∧
    (st.step_beat_counter + delta < 8 →
      choreoStepUpdate seq st delta =
        .ok ("head_tilt_roll", st.choreography_step_idx,
          st.step_beat_counter + delta)) ∧
    (∀ (seq2 : List ParamDict) (st2 : DemoState) (d2 : ℚ) (mv : String)
      (cyc : ℚ) (params : ParamDict),
      seq2.getD st2.choreography_step_idx [] =
        [("move", PValue.str mv), ("cycles", PValue.num cyc)] →
      assocLookup AVAILABLE_MOVES_params mv = some params →
      choreoStepUpdate seq2 st2 d2 =
        if (if 0 < getNumQ params "subcycles_per_beat" 1 then
              cyc / getNumQ params "subcycles_per_beat" 1 else cyc) ≤
            st2.step_beat_counter + d2 then
          .ok (mv, (st2.choreography_step_idx + 1) % seq2.length, 0)
        else
          .ok (mv, st2.choreography_step_idx, st2.step_beat_counter + d2)) := by
  have key : choreoStepUpdate seq st delta =
      if (8 : ℚ) ≤ st.step_beat_counter + delta then
        .ok ("head_tilt_roll", (st.choreography_step_idx + 1) % seq.length, 0)
      else
        .ok ("head_tilt_roll", st.choreography_step_idx,
          st.step_beat_counter + delta) := by
    unfold choreoStepUpdate
    rw [hstep]
    show (if (if (0 : ℚ) < (0.5 : ℚ) then (4 : ℚ) / (0.5 : ℚ) else 4) ≤
        st.step_beat_counter + delta then
      Except.ok ("head_tilt_roll", (st.choreography_step_idx + 1) % seq.length,
        (0 : ℚ))
      else Except.ok ("head_tilt_roll", st.choreography_step_idx,
        st.step_beat_counter + delta)) = _
    rw [if_pos (by norm_num : (0 : ℚ) < 0.5),
      show (4 : ℚ) / (0.5 : ℚ) = 8 by norm_num]
  refine ⟨?_, ?_, ?_⟩
  · intro h
    rw [key, if_pos h]
  · intro h
    rw [key, if_neg (not_le.mpr h)]
  · intro seq2 st2 d2 mv cyc params h1 h2
    unfold choreoStepUpdate
    rw [h1]
    simp only [dictLookup, reduceIte]
    rw [h2]
    rfl

/-- Witness for C7: a one-step choreography at counter 0 with a frame of 8
beats advances (back to index 0 modulo 1), and with a frame of 7.9 beats it
does not. -/
theorem choreo_step_transition_witness :
    ([[("move", PValue.str "head_tilt_roll"), ("cycles", PValue.num 4)]] :
        List ParamDict).getD
      (⟨true, 0, 0, 0, 0, 0, 0, 120, 1⟩ : DemoState).choreography_step_idx [] =
      [("move", PValue.str "head_tilt_roll"), ("cycles", PValue.num 4)] ∧
    ((8 : ℚ) ≤ (0 : ℚ) + 8 ∧
      choreoStepUpdate
        [[("move", PValue.str "head_tilt_roll"), ("cycles", PValue.num 4)]]
        ⟨true, 0, 0, 0, 0, 0, 0, 120, 1⟩ 8 = .ok ("head_tilt_roll", 0 % 1, 0)) := by
  have h := choreo_step_transition
    [[("move", PValue.str "head_tilt_roll"), ("cycles", PValue.num 4)]]
    ⟨true, 0, 0, 0, 0, 0, 0, 120, 1⟩ 8 rfl
  exact ⟨rfl, by norm_num, by
    have h2 := h.1 (by norm_num)
    simpa using h2⟩

/-- Applying the queued changes never touches the pause flag. -/
theorem applyChanges_running (m : Bool) (n : ℕ) (ch : Changes)
    (st : DemoState) : (applyChanges m n ch st).running = st.running := by
  simp only [applyChanges]
  split_ifs <;> rfl

/-- Applying the queued changes never touches the interactive global beat
accumulator. -/
theorem applyChanges_t_beats (m : Bool) (n : ℕ) (ch : Changes)
    (st : DemoState) : (applyChanges m n ch st).t_beats = st.t_beats := by
  simp only [applyChanges]
  split_ifs <;> rfl

/-- C8: whenever playback is paused, the tick (after applying queued edits)
emits exactly the configured neutral pose with zero antennas, skips motion
evaluation (the state is exactly the post-edit state), stays paused, and the
global beat accumulator is unchanged, for any elapsed time. -/
theorem paused_tick_neutral (cfg : DemoConfig) (choreo : Option (List ParamDict))
    (ch : Changes) (st : DemoState) (dt : ℚ) (h : st.running = false) :
    fullTick cfg choreo ch st dt =
      (.ok (.setTarget cfg.neutral_pos cfg.neutral_eul (vzeros 2)),
        applyChanges choreo.isSome (choreo.getD []).length ch st) ∧
    (applyChanges choreo.isSome (choreo.getD []).length ch st).running = false ∧
    (applyChanges choreo.isSome (choreo.getD []).length ch st).t_beats =
      st.t_beats := by
  have hr := (applyChanges_running choreo.isSome (choreo.getD []).length ch st).trans h
  refine ⟨?_, hr, applyChanges_t_beats _ _ _ _⟩
  unfold fullTick motionTick
  rw [if_pos hr]

/-- Witness for C8 at a paused interactive state. -/
theorem paused_tick_neutral_witness :
    (⟨false, 0, 0, 0, 0, 0, 0, 120, 1⟩ : DemoState).running = false ∧
    fullTick ⟨[0, 0, 0], [0, 0, 0], 8⟩ none ⟨false, false, false, 0, 0⟩
        ⟨false, 0, 0, 0, 0, 0, 0, 120, 1⟩ (1 / 100) =
      (.ok (.setTarget [0, 0, 0] [0, 0, 0] (vzeros 2)),
        applyChanges (none : Option (List ParamDict)).isSome
          ((none : Option (List ParamDict)).getD []).length
          ⟨false, false, false, 0, 0⟩ ⟨false, 0, 0, 0, 0, 0, 0, 120, 1⟩) ∧
    (applyChanges (none : Option (List ParamDict)).isSome
        ((none : Option (List ParamDict)).getD []).length
        ⟨false, false, false, 0, 0⟩
        ⟨false, 0, 0, 0, 0, 0, 0, 120, 1⟩).running = false ∧
    (applyChanges (none : Option (List ParamDict)).isSome
        ((none : Option (List ParamDict)).getD []).length
        ⟨false, false, false, 0, 0⟩
        ⟨false, 0, 0, 0, 0, 0, 0, 120, 1⟩).t_beats =
      (⟨false, 0, 0, 0, 0, 0, 0, 120, 1⟩ : DemoState).t_beats :=
  ⟨rfl, paused_tick_neutral ⟨[0, 0, 0], [0, 0, 0], 8⟩ none
    ⟨false, false, false, 0, 0⟩ ⟨false, 0, 0, 0, 0, 0, 0, 120, 1⟩ (1 / 100) rfl⟩

/-- C10: in interactive mode a next (resp. previous) navigation command moves
the move cursor forward (resp. backward) modulo the number of registered
moves and resets the auto-advance sequence counter to 0, while the global
beat accumulator t_beats is untouched; consequently, on a running tick with a
next command and no auto-advance, the newly selected move is evaluated at the
continuing global beat time t_beats plus this frame, not from beat 0. -/
theorem interactive_navigation (n : ℕ) (ch : Changes) (st : DemoState) :
    (ch.next_move = true → ch.prev_move = false →
      (applyChanges false n ch st).current_move_idx =
        (st.current_move_idx + 1) % moveNames.length ∧
      (applyChanges false n ch st).sequence_beat_counter = 0) ∧
    (ch.prev_move = true → ch.next_move = false →
      (applyChanges false n ch st).current_move_idx =
        (st.current_move_idx + moveNames.length - 1) % moveNames.length ∧
      (applyChanges false n ch st).sequence_beat_counter = 0) ∧
    (applyChanges false n ch st).t_beats = st.t_beats ∧
    (∀ (cfg : DemoConfig) (dt : ℚ), st.running = true → ch.next_move = true →
      ch.prev_move = false →
      dt * ((applyChanges false n ch st).bpm / 60) < cfg.beats_per_sequence →
      (motionTick cfg none (applyChanges false n ch st) dt).1 =
        evalMoveCommand cfg
          (moveNames.getD ((st.current_move_idx + 1) % moveNames.length) "")
          (st.t_beats + dt * ((applyChanges false n ch st).bpm / 60))
          (applyChanges false n ch st).current_waveform_idx
          (applyChanges false n ch st).amplitude_scale) := by
  refine ⟨?_, ?_, applyChanges_t_beats _ _ _ _, ?_⟩
  · intro hnext hprev
    constructor <;>
      (simp only [applyChanges, hnext, hprev, reduceIte]
       split_ifs <;> first | rfl | simp_all)
  · intro hprev hnext
    constructor <;>
      (simp only [applyChanges, hnext, hprev, reduceIte]
       split_ifs <;> first | rfl | simp_all)
  · intro cfg dt hrun hnext hprev hlt
    have hrun2 : (applyChanges false n ch st).running = true :=
      (applyChanges_running false n ch st).trans hrun
    have hidx : (applyChanges false n ch st).current_move_idx =
        (st.current_move_idx + 1) % moveNames.length := by
      simp only [applyChanges, hnext, hprev, reduceIte]
      split_ifs <;> first | rfl | simp_all
    have hseq : (applyChanges false n ch st).sequence_beat_counter = 0 := by
      simp only [applyChanges, hnext, hprev, reduceIte]
      split_ifs <;> first | rfl | simp_all
    have ht := applyChanges_t_beats false n ch st
    unfold motionTick
    rw [if_neg (by rw [hrun2]; simp)]
    simp only [hseq, hidx, ht, zero_add]
    rw [if_neg (not_le.mpr hlt)]

/-- Witness for C10: with a queued next command in interactive mode, from
move index 0 at t_beats = 5, the cursor moves to index 1 modulo the registry
size, the sequence counter resets, t_beats stays 5, and the running tick for
a one-beat frame evaluates the newly selected move at the continuing beat
time. -/
theorem interactive_navigation_witness :
    ((⟨true, false, false, 0, 0⟩ : Changes).next_move = true ∧
     (⟨true, false, false, 0, 0⟩ : Changes).prev_move = false ∧
     (⟨true, 0, 0, 5, 3, 0, 0, 120, 1⟩ : DemoState).running = true) ∧
    ((applyChanges false 0 ⟨true, false, false, 0, 0⟩
        ⟨true, 0, 0, 5, 3, 0, 0, 120, 1⟩).current_move_idx =
      ((⟨true, 0, 0, 5, 3, 0, 0, 120, 1⟩ : DemoState).current_move_idx + 1) %
        moveNames.length ∧
     (applyChanges false 0 ⟨true, false, false, 0, 0⟩
        ⟨true, 0, 0, 5, 3, 0, 0, 120, 1⟩).sequence_beat_counter = 0) ∧
    (applyChanges false 0 ⟨true, false, false, 0, 0⟩
        ⟨true, 0, 0, 5, 3, 0, 0, 120, 1⟩).t_beats = 5 ∧
    (motionTick ⟨[0, 0, 0], [0, 0, 0], 8⟩ none
        (applyChanges false 0 ⟨true, false, false, 0, 0⟩
          ⟨true, 0, 0, 5, 3, 0, 0, 120, 1⟩) 1).1 =
      evalMoveCommand ⟨[0, 0, 0], [0, 0, 0], 8⟩
        (moveNames.getD
          (((⟨true, 0, 0, 5, 3, 0, 0, 120, 1⟩ : DemoState).current_move_idx + 1) %
            moveNames.length) "")
        ((5 : ℚ) + 1 * ((applyChanges false 0 ⟨true, false, false, 0, 0⟩
          ⟨true, 0, 0, 5, 3, 0, 0, 120, 1⟩).bpm / 60))
        (applyChanges false 0 ⟨true, false, false, 0, 0⟩
          ⟨true, 0, 0, 5, 3, 0, 0, 120, 1⟩).current_waveform_idx
        (applyChanges false 0 ⟨true, false, false, 0, 0⟩
          ⟨true, 0, 0, 5, 3, 0, 0, 120, 1⟩).amplitude_scale := by
  have h := interactive_navigation 0 ⟨true, false, false, 0, 0⟩
    ⟨true, 0, 0, 5, 3, 0, 0, 120, 1⟩
  have hlt : (1 : ℚ) * ((applyChanges false 0 ⟨true, false, false, 0, 0⟩
      ⟨true, 0, 0, 5, 3, 0, 0, 120, 1⟩).bpm / 60) <
      (⟨[0, 0, 0], [0, 0, 0], 8⟩ : DemoConfig).beats_per_sequence := by
    have hbpm : (applyChanges false 0 ⟨true, false, false, 0, 0⟩
        ⟨true, 0, 0, 5, 3, 0, 0, 120, 1⟩).bpm = 120 := by
      simp [applyChanges]
    rw [hbpm]
    norm_num
  exact ⟨⟨rfl, rfl, rfl⟩, h.1 rfl rfl, h.2.2.1,
    h.2.2.2 ⟨[0, 0, 0], [0, 0, 0], 8⟩ 1 rfl rfl rfl hlt⟩
